import Mathlib

set_option maxHeartbeats 1000000
set_option linter.unusedVariables false

/-!
Verification development for the koa-spec request validator.

The definitions below are a shallow embedding of `lib/errors.js`
(src/unnamed/part_000) and the request-validation core of `lib/index.js`
(src/unnamed/part_001).  JavaScript numbers are modelled exactly: NaN and the
signed infinities are explicit constructors and finite doubles are rationals
(every finite IEEE-754 double is a rational; no claim below depends on
rounding, so the rational model is decisive for all inputs that appear).
Fallible code returns `Except`; the recursive descent of the validator is
given an explicit fuel argument (structural recursion on the fuel), and a
result of `none` means only that the fuel ran out — a modelling artifact,
never a program behaviour.  `$ref` markers are modelled as already resolved:
the pointer-table indirection of `validateObject`/`validateArray` replaces a
marker by the referenced schema subtree, so the inductive `Schema` below
carries the resolved subtree directly (cyclic schemas are not representable
inductively and no claim depends on them).
-/

namespace KoaSpec

/-- JavaScript runtime numbers as used by the validator: NaN, the two signed
infinities, and finite values modelled exactly as rationals. -/
inductive JSNum where
  | nan : JSNum
  | inf (pos : Bool) : JSNum
  | fin (q : ℚ) : JSNum
deriving DecidableEq, Repr

/-- The strict order on rationals by cross multiplication (denominators are
positive); a kernel-reduction-friendly equivalent of `a < b`. -/
def qLtB (a b : ℚ) : Bool := a.num * (b.den : ℤ) < b.num * (a.den : ℤ)

/-- The JavaScript comparison `x > b` for a number `x` and a finite bound `b`:
false for NaN, decided by sign for infinities. -/
def JSNum.gtQ : JSNum → ℚ → Bool
  | .nan, _ => false
  | .inf pos, _ => pos
  | .fin q, b => qLtB b q

/-- The JavaScript comparison `x < b` for a number `x` and a finite bound `b`. -/
def JSNum.ltQ : JSNum → ℚ → Bool
  | .nan, _ => false
  | .inf pos, _ => !pos
  | .fin q, b => qLtB q b

/-- The JavaScript test `x % 1 !== 0` is false exactly when `x` is a finite
integer; NaN and the infinities give `NaN % 1 = NaN`, which is `!== 0`. -/
def JSNum.isIntegral : JSNum → Bool
  | .fin q => decide (q.den = 1)
  | _ => false

/-- Raw runtime values flowing through the validator: the JSON scalars, the
calendar-timestamp values produced by the date-time format (modelled by the
source string they were built from, since no claim inspects the numeric
timestamp), string-keyed maps and sequences.  Absence (`undefined`) is
represented by `Option Val` at the sites where it can occur. -/
inductive Val where
  | null : Val
  | bool (b : Bool) : Val
  | num (n : JSNum) : Val
  | str (s : String) : Val
  | date (s : String) : Val
  | obj (fields : List (String × Val)) : Val
  | arr (elems : List Val) : Val

/-- A schema node as consumed by the validator: `type`, `format`,
`x-nullable`, `items`, `properties`, `required` and `default`, each possibly
absent.  `$ref` markers are represented by the resolved subtree (see the
module comment). -/
inductive Schema where
  | mk (ty : Option String) (fm : Option String) (nullable : Option Bool)
       (items : Option Schema) (props : Option (List (String × Schema)))
       (req : Option (List String)) (dflt : Option Val) : Schema

def Schema.ty : Schema → Option String
  | .mk t _ _ _ _ _ _ => t

def Schema.fm : Schema → Option String
  | .mk _ f _ _ _ _ _ => f

def Schema.nullable : Schema → Option Bool
  | .mk _ _ n _ _ _ _ => n

def Schema.items : Schema → Option Schema
  | .mk _ _ _ i _ _ _ => i

def Schema.props : Schema → Option (List (String × Schema))
  | .mk _ _ _ _ p _ _ => p

def Schema.req : Schema → Option (List String)
  | .mk _ _ _ _ _ r _ => r

def Schema.dflt : Schema → Option Val
  | .mk _ _ _ _ _ _ d => d

/-- First-match lookup in a string-keyed association list, the semantics of
JavaScript property reads on the plain objects modelled here. -/
def assocGet (l : List (String × Val)) (k : String) : Option Val :=
  (l.find? (fun p => p.1 = k)).map Prod.snd

/-- JavaScript property write `o[k] = v`: replaces the value of an existing
key (the first occurrence — the maps the validator builds never hold
duplicate keys), otherwise appends the key. -/
def assocSet : List (String × Val) → String → Val → List (String × Val)
  | [], k, v => [(k, v)]
  | (k', x) :: t, k, v =>
    if k' = k then (k, v) :: t else (k', x) :: assocSet t k v

/-- The whitespace characters skipped by `parseInt`/`parseFloat` (the ASCII
subset; the full Unicode white-space set never appears in any claim). -/
def isWsChar (c : Char) : Bool :=
  c = ' ' || c = '\t' || c = '\n' || c = '\r' || c = '\x0b' || c = '\x0c'

/-- ASCII lower-casing (the `i` flag only has to identify ASCII letters for
the three patterns here, whose letters are all ASCII). -/
def lowerChar (c : Char) : Char :=
  if 'A' ≤ c && c ≤ 'Z' then Char.ofNat (c.toNat + 32) else c

def lowerList (cs : List Char) : List Char := cs.map lowerChar

def digitVal (c : Char) : ℕ := c.toNat - '0'.toNat

def natOfDigits (ds : List Char) : ℕ :=
  ds.foldl (fun a c => 10 * a + digitVal c) 0

def digitChar (n : ℕ) : Char := Char.ofNat ('0'.toNat + n)

/-- Base-10 digits of a natural number, most significant first; the fuel of
400 covers every double magnitude (below 1e309). -/
def natDigits : ℕ → ℕ → List Char
  | 0, _ => []
  | f + 1, n => if n < 10 then [digitChar n] else natDigits f (n / 10) ++ [digitChar (n % 10)]

/-- Plain decimal rendering of an integer (sign and digits), as JavaScript
number-to-string produces for integral values of magnitude below 1e21. -/
def intRender (a : ℤ) : String :=
  String.mk ((if a < 0 then ['-'] else []) ++ natDigits 400 a.natAbs)

/-- Exponent-notation rendering of an integral value of magnitude at least
1e21, as JavaScript number-to-string produces there: the significant digits
with the decimal point after the first, then `e+` and the decimal exponent
(`String(1e22)` is `"1e+22"`). -/
def expRender (a : ℤ) : String :=
  let ds := natDigits 400 a.natAbs
  let m := (ds.reverse.dropWhile (fun c => c = '0')).reverse
  String.mk ((if a < 0 then ['-'] else []) ++
    match m with
    | [] => ['0']
    | d :: rest =>
      [d] ++ (if rest.isEmpty then [] else '.' :: rest)
        ++ ['e', '+'] ++ natDigits 400 (ds.length - 1))

/-- JavaScript `parseFloat(s)`: skip whitespace, optional sign, then the
longest prefix that is `Infinity` or a decimal literal (digits, optional
fraction, optional exponent); NaN when no prefix parses. -/
def parseFloatStr (s : String) : JSNum :=
  let cs := s.toList.dropWhile isWsChar
  let (neg, cs) : Bool × List Char :=
    match cs with
    | '-' :: r => (true, r)
    | '+' :: r => (false, r)
    | r => (false, r)
  if cs.take 8 = "Infinity".toList then .inf (!neg)
  else
    let d1 := cs.takeWhile Char.isDigit
    let r1 := cs.dropWhile Char.isDigit
    let (d2, r2) : List Char × List Char :=
      match r1 with
      | '.' :: r => (r.takeWhile Char.isDigit, r.dropWhile Char.isDigit)
      | _ => ([], r1)
    if d1.isEmpty && d2.isEmpty then .nan
    else
      let m : ℕ := natOfDigits (d1 ++ d2)
      let k : ℕ := d2.length
      let e : ℤ :=
        match r2 with
        | 'e' :: r | 'E' :: r =>
          let (eneg, r') : Bool × List Char :=
            match r with
            | '-' :: t => (true, t)
            | '+' :: t => (false, t)
            | t => (false, t)
          let ed := r'.takeWhile Char.isDigit
          if ed.isEmpty then 0
          else if eneg then -(natOfDigits ed : ℤ) else (natOfDigits ed : ℤ)
        | _ => 0
      let mag : ℚ :=
        if 0 ≤ e then mkRat ((m : ℤ) * 10 ^ e.toNat) (10 ^ k)
        else mkRat (m : ℤ) (10 ^ (k + (-e).toNat))
      .fin (if neg then -mag else mag)

/-- JavaScript `parseInt(s, 10)`: skip whitespace, optional sign, then the
longest prefix of decimal digits; `none` models NaN. -/
def parseIntStr (s : String) : Option ℤ :=
  let cs := s.toList.dropWhile isWsChar
  let (neg, cs) : Bool × List Char :=
    match cs with
    | '-' :: r => (true, r)
    | '+' :: r => (false, r)
    | r => (false, r)
  let d := cs.takeWhile Char.isDigit
  if d.isEmpty then none
  else some (if neg then -(natOfDigits d : ℤ) else (natOfDigits d : ℤ))

/-- Smallest exponent `k ≤ 40` with `den ∣ 10 ^ k`, used to render
terminating decimals. -/
def pow10Scale (den : ℕ) : Option ℕ :=
  (List.range 41).find? (fun k => 10 ^ k % den = 0)

/-- Decimal rendering of a rational, as JavaScript number-to-string produces:
integral values render as plain sign-and-digits below magnitude 1e21 and in
exponent notation at or above it (`String(1e22)` is `"1e+22"`); terminating
fractional expansions render in plain notation.  The remaining regions —
positive magnitude below 1e-6 (exponent notation in JavaScript) and
non-terminating expansions (not expressible as doubles) — are rendered
approximately; no claim reaches them. -/
def qToString (q : ℚ) : String :=
  if q.den = 1 then
    if q.num.natAbs < 10 ^ 21 then intRender q.num else expRender q.num
  else
    match pow10Scale q.den with
    | some k =>
      let n : ℕ := q.num.natAbs * ((10 ^ k) / q.den)
      let ds := toString n
      let ds := String.mk (List.replicate (k + 1 - ds.length) '0') ++ ds
      let ip := ds.dropRight k
      let fp := ds.drop (ds.length - k)
      (if q.num < 0 then "-" else "") ++ ip ++ "." ++ fp
    | none => toString q.num ++ "/" ++ toString q.den

/-- JavaScript string coercion of a runtime value, with explicit fuel for
array nesting (`Array.prototype.join` renders null elements as the empty
string).  A calendar-timestamp value stringifies to a locale date string,
modelled abstractly by a bracketed form: the only property used anywhere is
that it never parses as a number or boolean, which holds for both. -/
def jsToString : ℕ → Val → String
  | _, .null => "null"
  | _, .bool true => "true"
  | _, .bool false => "false"
  | _, .num .nan => "NaN"
  | _, .num (.inf true) => "Infinity"
  | _, .num (.inf false) => "-Infinity"
  | _, .num (.fin q) => qToString q
  | _, .str s => s
  | _, .date s => "[date " ++ s ++ "]"
  | _, .obj _ => "[object Object]"
  | 0, .arr _ => ""
  | f + 1, .arr l =>
    String.intercalate "," (l.map (fun x => match x with
      | .null => ""
      | x => jsToString f x))

/-- JavaScript string coercion with a fixed fuel of 1000, which bounds the
array-nesting depth rendered faithfully; no claim involves values nested
even remotely that deep. -/
def jsStr (v : Val) : String := jsToString 1000 v

/-- `parseFloat(value)` on an arbitrary runtime value: numbers round-trip
through their own string representation (exactly themselves), everything
else is coerced to a string first. -/
def parseFloatVal : Val → JSNum
  | .num n => n
  | .str s => parseFloatStr s
  | v => parseFloatStr (jsStr v)

/-- `parseInt(value, 10)` on an arbitrary runtime value: `parseInt`
string-coerces its argument first, so a number goes through its JavaScript
rendering — truncation toward zero in the plain-notation region, but only
the mantissa's leading digits once the rendering switches to exponent
notation (`parseInt(1e22, 10)` is `1`).  `NaN` and the infinities render as
words without leading digits and parse to NaN (`none`). -/
def parseIntVal : Val → Option ℤ
  | .str s => parseIntStr s
  | v => parseIntStr (jsStr v)

/-- Modelled from the spec: `utils.parseBoolean` belongs to this repository
but its source file is not under src/ (the `lib/utils.js` present is an
older revision without it).  Per the spec, the boolean type accepts
"canonical boolean values and the case-insensitive strings `"true"`/`"false"`;
anything else is a Type error"; `none` models a non-boolean parse result. -/
def parseBoolean : Val → Option Bool
  | .bool b => some b
  | .str s =>
    if lowerList s.toList = "true".toList then some true
    else if lowerList s.toList = "false".toList then some false
    else none
  | _ => none

/-- Regular-expression abstract syntax covering exactly the constructs used
by the validator's three format patterns (`uuid`, `isbn`, `date-time`):
character classes of ranges, ordered alternation, greedy option/repetition,
capturing groups, backreferences, positive and negative lookahead, the word
boundary and the end anchor.  All three source patterns carry the `i` flag;
matching lower-cases the input and the transcribed patterns are written in
lower case. -/
inductive RE where
  | eps : RE
  | cls (ranges : List (Char × Char)) : RE
  | cat (a b : RE) : RE
  | alt (a b : RE) : RE
  | opt (a : RE) : RE
  | rep (n : ℕ) (a : RE) : RE
  | repUpTo (n : ℕ) (a : RE) : RE
  | plus (a : RE) : RE
  | grp (i : ℕ) (a : RE) : RE
  | bref (i : ℕ) : RE
  | la (a : RE) : RE
  | nla (a : RE) : RE
  | wb : RE
  | eos : RE

/-- Capture store: slot `i - 1` holds the text last matched by group `i`;
an unset group behaves as the empty string under backreference (JavaScript
semantics). -/
def Caps : Type := List (Option (List Char))

def getCap (caps : Caps) (i : ℕ) : List Char :=
  (caps.getD (i - 1) none).getD []

def setCap (caps : Caps) (i : ℕ) (t : List Char) : Caps :=
  caps.set (i - 1) (some t)

def isWordChar (c : Char) : Bool := c.isAlphanum || c = '_'

/-- Backtracking matcher in continuation-passing style.  `pre` is the
reversed consumed prefix (for the word-boundary assertion), `post` the
remaining input, `k` the continuation.  The fuel decrements at every step;
exhaustion yields `false`, and the wrapper below passes a bound generous for
every input any claim evaluates (backtracking on adversarially long inputs
could in principle exceed any fixed polynomial bound, a documented limit of
the fueled model). -/
def reMat : ℕ → RE → List Char → List Char → Caps →
    (List Char → List Char → Caps → Bool) → Bool
  | 0, _, _, _, _, _ => false
  | f + 1, re, pre, post, caps, k =>
    match re with
    | .eps => k pre post caps
    | .cls rs =>
      match post with
      | [] => false
      | c :: rest =>
        if rs.any (fun r => r.1 ≤ c && c ≤ r.2) then k (c :: pre) rest caps else false
    | .cat a b =>
      reMat f a pre post caps (fun p' q' c' => reMat f b p' q' c' k)
    | .alt a b => reMat f a pre post caps k || reMat f b pre post caps k
    | .opt a => reMat f a pre post caps k || k pre post caps
    | .rep 0 _ => k pre post caps
    | .rep (n + 1) a =>
      reMat f a pre post caps (fun p' q' c' => reMat f (.rep n a) p' q' c' k)
    | .repUpTo 0 _ => k pre post caps
    | .repUpTo (n + 1) a =>
      reMat f a pre post caps (fun p' q' c' => reMat f (.repUpTo n a) p' q' c' k)
        || k pre post caps
    | .plus a =>
      reMat f a pre post caps (fun p' q' c' =>
        reMat f (.plus a) p' q' c' k || k p' q' c')
    | .grp i a =>
      reMat f a pre post caps (fun p' q' c' =>
        k p' q' (setCap c' i (post.take (post.length - q'.length))))
    | .bref i =>
      let t := getCap caps i
      if post.take t.length = t then k (t.reverse ++ pre) (post.drop t.length) caps
      else false
    | .la a =>
      if reMat f a pre post caps (fun _ _ _ => true) then k pre post caps else false
    | .nla a =>
      if reMat f a pre post caps (fun _ _ _ => true) then false else k pre post caps
    | .wb =>
      let l := match pre with | [] => false | c :: _ => isWordChar c
      let r := match post with | [] => false | c :: _ => isWordChar c
      if l != r then k pre post caps else false
    | .eos =>
      match post with
      | [] => k pre post caps
      | _ :: _ => false
termination_by structural f => f

/-- `regex.test(s)` for an anchored pattern (all three source patterns start
with `^`): match from position zero under the `i` flag. -/
def reTest (re : RE) (s : String) : Bool :=
  let cs := lowerList s.toList
  reMat (100000 + 1000 * cs.length) re [] cs (List.replicate 24 none)
    (fun _ _ _ => true)

def rch (c : Char) : RE := .cls [(c, c)]

def rstr (s : String) : RE := s.toList.foldr (fun c acc => .cat (rch c) acc) .eps

def rcat (l : List RE) : RE := l.foldr .cat .eps

def ralts : List RE → RE
  | [] => .eps
  | [a] => a
  | a :: r => .alt a (ralts r)

def rdigit : RE := .cls [('0', '9')]

def plusMinusCls : RE := .cls [('+', '+'), ('-', '-')]

def dashSpCls : RE := .cls [('-', '-'), (' ', ' ')]

/-- `/^[0-9a-f]{8}-[0-9a-f]{4}-[0-9a-f]{4}-[0-9a-f]{4}-[0-9a-f]{12}$/i`
from `validateStringUUID`. -/
def uuidRE : RE :=
  let hex : RE := .cls [('0', '9'), ('a', 'f')]
  rcat [.rep 8 hex, rch '-', .rep 4 hex, rch '-', .rep 4 hex, rch '-',
        .rep 4 hex, rch '-', .rep 12 hex, .eos]

/-- The combined ISBN-10/ISBN-13 pattern of `validateStringISBN`:
`/^(?=[0-9X]{10}$|(?=(?:[0-9]+[- ]){3})[- 0-9X]{13}$|97[89][0-9]{10}$|(?=(?:[0-9]+[- ]){4})[- 0-9]{17}$)(?:97[89][- ]?)?[0-9]{1,5}[- ]?[0-9]+[- ]?[0-9]+[- ]?[0-9X]$/i`. -/
def isbnRE : RE :=
  let digX : RE := .cls [('0', '9'), ('x', 'x')]
  let dashSpDigX : RE := .cls [('-', '-'), (' ', ' '), ('0', '9'), ('x', 'x')]
  let dashSpDig : RE := .cls [('-', '-'), (' ', ' '), ('0', '9')]
  let altA := rcat [.rep 10 digX, .eos]
  let altB := rcat [.la (.rep 3 (rcat [.plus rdigit, dashSpCls])),
                    .rep 13 dashSpDigX, .eos]
  let altC := rcat [rstr "97", .cls [('8', '9')], .rep 10 rdigit, .eos]
  let altD := rcat [.la (.rep 4 (rcat [.plus rdigit, dashSpCls])),
                    .rep 17 dashSpDig, .eos]
  rcat [.la (ralts [altA, altB, altC, altD]),
        .opt (rcat [rstr "97", .cls [('8', '9')], .opt dashSpCls]),
        .rep 1 rdigit, .repUpTo 4 rdigit, .opt dashSpCls,
        .plus rdigit, .opt dashSpCls, .plus rdigit, .opt dashSpCls,
        digX, .eos]

/-- The ISO 8601 date-time pattern of `validateStringDateTime`, transcribed
group by group (capture-group numbers follow the source pattern's
parenthesis order; `\3` is the date separator, `\17` the time separator):
`/^([\+-]?\d{4}(?!\d{2}\b))((-?)((0[1-9]|1[0-2])(\3([12]\d|0[1-9]|3[01]))?|W([0-4]\d|5[0-2])(-?[1-7])?|(00[1-9]|0[1-9]\d|[12]\d{2}|3([0-5]\d|6[1-6])))([T\s]((([01]\d|2[0-3])((:?)[0-5]\d)?|24\:?00)([\.,]\d+(?!:))?)?(\17[0-5]\d([\.,]\d+)?)?([zZ]|([\+-])([01]\d|2[0-3]):?([0-5]\d)?)?)?)?$/i`. -/
def isoDateTimeRE : RE :=
  let tsCls : RE := .cls [('t', 't'), (' ', ' '), ('\t', '\t'), ('\n', '\n'),
                          ('\r', '\r'), ('\x0b', '\x0b'), ('\x0c', '\x0c')]
  let dotComma : RE := .cls [('.', '.'), (',', ',')]
  let g1 := .grp 1 (rcat [.opt plusMinusCls, .rep 4 rdigit,
                          .nla (rcat [.rep 2 rdigit, .wb])])
  let month := RE.grp 5 (ralts [rcat [rch '0', .cls [('1', '9')]],
                                rcat [rch '1', .cls [('0', '2')]]])
  let day := RE.grp 7 (ralts [rcat [.cls [('1', '2')], rdigit],
                              rcat [rch '0', .cls [('1', '9')]],
                              rcat [rch '3', .cls [('0', '1')]]])
  let g6 := RE.opt (.grp 6 (rcat [.bref 3, day]))
  let monthDay := rcat [month, g6]
  let week := rcat [rch 'w',
                    RE.grp 8 (ralts [rcat [.cls [('0', '4')], rdigit],
                                     rcat [rch '5', .cls [('0', '2')]]]),
                    RE.opt (.grp 9 (rcat [.opt (rch '-'), .cls [('1', '7')]]))]
  let dayOfYear := RE.grp 10 (ralts
    [rcat [rstr "00", .cls [('1', '9')]],
     rcat [rch '0', .cls [('1', '9')], rdigit],
     rcat [.cls [('1', '2')], .rep 2 rdigit],
     rcat [rch '3', RE.grp 11 (ralts [rcat [.cls [('0', '5')], rdigit],
                                      rcat [rch '6', .cls [('1', '6')]]])]])
  let g4 := RE.grp 4 (ralts [monthDay, week, dayOfYear])
  let g3 := RE.grp 3 (.opt (rch '-'))
  let hours := RE.grp 15 (ralts [rcat [.cls [('0', '1')], rdigit],
                                 rcat [rch '2', .cls [('0', '3')]]])
  let g17 := RE.grp 17 (.opt (rch ':'))
  let g16 := RE.opt (.grp 16 (rcat [g17, .cls [('0', '5')], rdigit]))
  let g14 := RE.grp 14 (ralts [rcat [hours, g16],
                               rcat [rstr "24", .opt (rch ':'), rstr "00"]])
  let g18 := RE.opt (.grp 18 (rcat [dotComma, .plus rdigit, .nla (rch ':')]))
  let g13 := RE.opt (.grp 13 (rcat [g14, g18]))
  let g20 := RE.opt (.grp 20 (rcat [dotComma, .plus rdigit]))
  let g19 := RE.opt (.grp 19 (rcat [.bref 17, .cls [('0', '5')], rdigit, g20]))
  let g22 := RE.grp 22 plusMinusCls
  let g23 := RE.grp 23 (ralts [rcat [.cls [('0', '1')], rdigit],
                               rcat [rch '2', .cls [('0', '3')]]])
  let g24 := RE.opt (.grp 24 (rcat [.cls [('0', '5')], rdigit]))
  let g21 := RE.opt (.grp 21 (ralts [rch 'z',
                                     rcat [g22, g23, .opt (rch ':'), g24]]))
  let g12 := RE.opt (.grp 12 (rcat [tsCls, g13, g19, g21]))
  let g2 := RE.opt (.grp 2 (rcat [g3, g4, g12]))
  rcat [g1, g2, .eos]

/-! ## Error model (`lib/errors.js`, src/unnamed/part_000) -/

/-- Which error constructor the validator invokes at a throw site. -/
inductive ErrKind where
  | src : ErrKind
  | req : ErrKind
  | nul : ErrKind
  | typ : ErrKind
  | fmt : ErrKind
deriving DecidableEq, Repr

/-- A failure raised inside the validation descent: either one of the
library's validation errors, carrying the arguments passed at the throw site
(`name`, `type`, `format`, `value`, message suffix), or a built-in JavaScript
TypeError (`native`), which the descent can also raise by reading a property
of `null`. -/
inductive VErr where
  | thrown (kind : ErrKind) (name : String) (ty : Option String)
      (fm : Option String) (value : Option Val) (msg : String) : VErr
  | native (msg : String) : VErr

/-- `new SourceValidationError(name, type, format, value, message)`. -/
def SourceValidationError (name : String) (ty fm : Option String)
    (value : Option Val) (msg : String) : VErr :=
  .thrown .src name ty fm value msg

/-- `new RequiredValidationError(name, type, format, value, message)`. -/
def RequiredValidationError (name : String) (ty fm : Option String)
    (value : Option Val) (msg : String) : VErr :=
  .thrown .req name ty fm value msg

/-- `new NullableValidationError(name, type, format, value, message)`. -/
def NullableValidationError (name : String) (ty fm : Option String)
    (value : Option Val) (msg : String) : VErr :=
  .thrown .nul name ty fm value msg

/-- `new TypeValidationError(name, type, format, value, message)`. -/
def TypeValidationError (name : String) (ty fm : Option String)
    (value : Option Val) (msg : String) : VErr :=
  .thrown .typ name ty fm value msg

/-- `new FormatValidationError(name, type, format, value, message)`. -/
def FormatValidationError (name : String) (ty fm : Option String)
    (value : Option Val) (msg : String) : VErr :=
  .thrown .fmt name ty fm value msg

/-- String interpolation of a possibly-undefined string (`${x}` renders
`undefined` for a missing value). -/
def optStr : Option String → String
  | none => "undefined"
  | some s => s

/-- String interpolation of a possibly-undefined runtime value. -/
def optValStr : Option Val → String
  | none => "undefined"
  | some v => jsStr v

/-- The numeric code table `CODES` of `lib/errors.js`.  Note that it declares
no `VALIDATION_NULLABLE` entry, although `NullableValidationError` reads
`CODES.VALIDATION_NULLABLE`. -/
def CODES : List (String × ℕ) :=
  [("ROUTER", 1), ("ROUTE", 2), ("ROUTE_NOT_IMPLEMENTED", 3),
   ("VALIDATION_SOURCE", 100), ("VALIDATION_REQUIRED", 101),
   ("VALIDATION_TYPE", 102), ("VALIDATION_FORMAT", 103)]

/-- Property read `CODES.k`: `none` models `undefined`. -/
def codeOf (k : String) : Option ℕ :=
  (CODES.find? (fun p => p.1 = k)).map Prod.snd

/-- The observable fields stored on a constructed `ValidationError` object:
`BaseError` stores `message` and `code`, and `ValidationError(message, code,
name, type, format, value)` then stores its four trailing parameters on the
object. -/
structure StoredError where
  code : Option ℕ
  message : String
  name : Option Val
  ty : Option String
  fm : Option String
  value : Option Val

/-- The `ValidationError` constructor of `lib/errors.js`. -/
def ValidationErrorStored (message : String) (code : Option ℕ) (name : Option Val)
    (ty : Option String) (fm : Option String) (value : Option Val) : StoredError :=
  ⟨code, message, name, ty, fm, value⟩

/-- The object each concrete error subclass constructs.  Every subclass of
`lib/errors.js` invokes the parent as `ValidationError.call(this, message,
CODE, value)` — three arguments — so the parent's `name` parameter receives
the subclass's `value` argument and its `type`, `format` and `value`
parameters receive `undefined`; `NullableValidationError` passes
`CODES.VALIDATION_NULLABLE`, which is undefined. -/
def storedOfThrown (k : ErrKind) (name : String) (ty fm : Option String)
    (value : Option Val) (msg : String) : StoredError :=
  match k with
  | .src => ValidationErrorStored ("Name: '" ++ name ++ "'. " ++ msg)
      (codeOf "VALIDATION_SOURCE") value none none none
  | .req => ValidationErrorStored ("Name: '" ++ name ++ "'. Value is required.")
      (codeOf "VALIDATION_REQUIRED") value none none none
  | .nul => ValidationErrorStored ("Name: '" ++ name ++ "'. Value is nullable.")
      (codeOf "VALIDATION_NULLABLE") value none none none
  | .typ => ValidationErrorStored ("Name: '" ++ name ++ "'. Expected type '"
      ++ optStr ty ++ "'. Value: '" ++ optValStr value ++ "'. " ++ msg)
      (codeOf "VALIDATION_TYPE") value none none none
  | .fmt => ValidationErrorStored ("Name: '" ++ name ++ "'. Type: '"
      ++ optStr ty ++ "(" ++ optStr fm ++ ")'. Value: '" ++ optValStr value ++ "'. " ++ msg)
      (codeOf "VALIDATION_FORMAT") value none none none

/-! ## Scalar validators (`createRequestValidator`, src/unnamed/part_001) -/

def INTEGER_INT32_MAX_VALUE : ℚ := mkRat 2147483647 1
def INTEGER_INT32_MIN_VALUE : ℚ := mkRat (-2147483648) 1
def INTEGER_INT64_MAX_VALUE : ℚ := mkRat 9007199254740991 1
def INTEGER_INT64_MIN_VALUE : ℚ := mkRat (-9007199254740991) 1
def NUMBER_FLOAT_MIN_VALUE : ℚ := mkRat (-34028235 * 10 ^ 31) 1
def NUMBER_FLOAT_MAX_VALUE : ℚ := mkRat (34028235 * 10 ^ 31) 1

/-- `validateBoolean` (part_001 lines 158-166): parse via `parseBoolean`,
Type error unless the result is a boolean. -/
def validateBoolean (name : String) (ty fm : Option String) (value : Val) :
    Except VErr Val :=
  match parseBoolean value with
  | some b => .ok (.bool b)
  | none => .error (TypeValidationError name ty fm (some value) "Not a 'boolean'.")

/-- `validateIntegerInt32` (lines 187-194). -/
def validateIntegerInt32 (name : String) (ty fm : Option String) (value : Val)
    (actualValue : ℤ) : Except VErr Val :=
  if qLtB INTEGER_INT32_MAX_VALUE (mkRat actualValue 1) then
    .error (FormatValidationError name ty fm (some value)
      "Maximum integer (int32) value: 2147483647.")
  else if qLtB (mkRat actualValue 1) INTEGER_INT32_MIN_VALUE then
    .error (FormatValidationError name ty fm (some value)
      "Minimum integer (int32) value: -2147483648.")
  else .ok (.num (.fin (mkRat actualValue 1)))

/-- `validateIntegerInt64` (lines 196-203). -/
def validateIntegerInt64 (name : String) (ty fm : Option String) (value : Val)
    (actualValue : ℤ) : Except VErr Val :=
  if qLtB INTEGER_INT64_MAX_VALUE (mkRat actualValue 1) then
    .error (FormatValidationError name ty fm (some value)
      "Maximum integer (int64) value: 9007199254740991.")
  else if qLtB (mkRat actualValue 1) INTEGER_INT64_MIN_VALUE then
    .error (FormatValidationError name ty fm (some value)
      "Minimum integer (int64) value: -9007199254740991.")
  else .ok (.num (.fin (mkRat actualValue 1)))

/-- `validateInteger` (lines 168-185): `parseInt(value, 10)`, Type error on
NaN; Type error when `parseFloat(value) % 1 !== 0` (the raw value was
actually a float); then dispatch on format, any other format being a Format
error. -/
def validateInteger (name : String) (ty fm : Option String) (value : Val) :
    Except VErr Val :=
  match parseIntVal value with
  | none => .error (TypeValidationError name ty fm (some value) "Not an 'integer'.")
  | some actualValue =>
    if !(parseFloatVal value).isIntegral then
      .error (TypeValidationError name ty fm (some value) "Not an 'integer'.")
    else
      match fm with
      | some "int32" => validateIntegerInt32 name ty fm value actualValue
      | some "int64" => validateIntegerInt64 name ty fm value actualValue
      | _ => .error (FormatValidationError name ty fm (some value)
          ("Unknown format: " ++ optStr fm ++ "."))

/-- `validateNumberFloat` (lines 221-228). -/
def validateNumberFloat (name : String) (ty fm : Option String) (value : Val)
    (actualValue : JSNum) : Except VErr Val :=
  if actualValue.gtQ NUMBER_FLOAT_MAX_VALUE then
    .error (FormatValidationError name ty fm (some value)
      "Maximum number (float) value: 3.4028235e+38.")
  else if actualValue.ltQ NUMBER_FLOAT_MIN_VALUE then
    .error (FormatValidationError name ty fm (some value)
      "Minimum number (float) value: -3.4028235e+38.")
  else .ok (.num actualValue)

/-- `validateNumberDouble` (lines 230-232): returns the parsed value with no
further check of any kind. -/
def validateNumberDouble (name : String) (ty fm : Option String) (value : Val)
    (actualValue : JSNum) : Except VErr Val :=
  .ok (.num actualValue)

/-- `validateNumber` (lines 205-219): `parseFloat(value)`, Type error on
NaN; then dispatch on format, any other format being a Format error. -/
def validateNumber (name : String) (ty fm : Option String) (value : Val) :
    Except VErr Val :=
  match parseFloatVal value with
  | .nan => .error (TypeValidationError name ty fm (some value) "Not a 'number'.")
  | actualValue =>
    match fm with
    | some "float" => validateNumberFloat name ty fm value actualValue
    | some "double" => validateNumberDouble name ty fm value actualValue
    | _ => .error (FormatValidationError name ty fm (some value)
        ("Unknown format: " ++ optStr fm ++ "."))

/-- `validateStringUUID` (lines 255-260). -/
def validateStringUUID (name : String) (ty fm : Option String) (value : Val)
    (actualValue : String) : Except VErr Val :=
  if !reTest uuidRE actualValue then
    .error (FormatValidationError name ty fm (some value) "Not a 'uuid'.")
  else .ok (.str actualValue)

/-- `validateStringISBN` (lines 262-267). -/
def validateStringISBN (name : String) (ty fm : Option String) (value : Val)
    (actualValue : String) : Except VErr Val :=
  if !reTest isbnRE actualValue then
    .error (FormatValidationError name ty fm (some value) "Not a 'isbn'.")
  else .ok (.str actualValue)

/-- `validateStringDateTime` (lines 269-276): the ISO 8601 pattern, then
`new Date(actualValue)` — the returned value is a calendar timestamp, not a
string. -/
def validateStringDateTime (name : String) (ty fm : Option String) (value : Val)
    (actualValue : String) : Except VErr Val :=
  if !reTest isoDateTimeRE actualValue then
    .error (FormatValidationError name ty fm (some value) "Not a 'date-time' (ISO 8601).")
  else .ok (.date actualValue)

/-- `validateString` (lines 234-253): Type error unless the raw value is a
string; no format accepts as-is; `uuid`, `isbn` and `date-time` apply their
format checks; any other format is a Format error. -/
def validateString (name : String) (ty fm : Option String) (value : Val) :
    Except VErr Val :=
  match value with
  | .str s =>
    match fm with
    | none => .ok (.str s)
    | some "uuid" => validateStringUUID name ty fm (.str s) s
    | some "isbn" => validateStringISBN name ty fm (.str s) s
    | some "date-time" => validateStringDateTime name ty fm (.str s) s
    | some f => .error (FormatValidationError name ty fm (some (.str s))
        ("Unknown format: " ++ f ++ "."))
  | v => .error (TypeValidationError name ty fm (some v) "Not a 'string'.")

/-- The JavaScript property read `value[propertyName]` as performed by
`validateObject`: an error on `null` (built-in TypeError), a lookup on a
map, `undefined` on everything else (named properties of arrays, strings
and other scalars are undefined for the schema-declared property names that
occur; exotic names such as `length` are not modelled). -/
def jsIndex (value : Val) (k : String) : Except VErr (Option Val) :=
  match value with
  | .null => .error (.native ("Cannot read properties of null (reading '" ++ k ++ "')."))
  | .obj l => .ok (assocGet l k)
  | _ => .ok none

/-! ## Recursive descent (`validateValue` and friends, part_001 lines 278-364)

Each function takes an explicit fuel, decremented at every call between the
functions of the family; `none` means the fuel ran out (a modelling
artifact only — the JavaScript recursion is bounded by the finite schema).
`validatePropsLoop` is the `_.forOwn(properties, ...)` loop body of
`validateObject`, and `validateItemsLoop` the `_.map(values, ...)` loop of
`validateArray`; a thrown error aborts either loop immediately. -/

mutual

/-- `validateValue` (lines 333-345): a null raw value consults `x-nullable`
when (and only when) that flag is declared; otherwise type dispatch. -/
def validateValue (fuel : ℕ) (name : String) (ty fm : Option String)
    (nullable : Option Bool) (items : Option Schema)
    (props : Option (List (String × Schema))) (req : Option (List String))
    (value : Val) : Option (Except VErr Val) :=
  match fuel with
  | 0 => none
  | f + 1 =>
    match value with
    | .null =>
      match nullable with
      | some b =>
        if b then some (.ok .null)
        else some (.error (NullableValidationError name ty fm (some .null)
          "Can not be 'null'."))
      | none => validateValueType f name ty fm nullable items props req .null
    | v => validateValueType f name ty fm nullable items props req v

/-- `validateValueType` (lines 347-364): dispatch on the declared `type`;
anything outside the six known types (including an undeclared type) is a
Type error. -/
def validateValueType (fuel : ℕ) (name : String) (ty fm : Option String)
    (nullable : Option Bool) (items : Option Schema)
    (props : Option (List (String × Schema))) (req : Option (List String))
    (value : Val) : Option (Except VErr Val) :=
  match fuel with
  | 0 => none
  | f + 1 =>
    match ty with
    | some "boolean" => some (validateBoolean name ty fm value)
    | some "integer" => some (validateInteger name ty fm value)
    | some "number" => some (validateNumber name ty fm value)
    | some "string" => some (validateString name ty fm value)
    | some "object" => validateObject f name ty fm props req value
    | some "array" => validateArray f name ty fm items value
    | _ => some (.error (TypeValidationError name ty fm (some value)
        ("Unsupported type: '" ++ optStr ty ++ "'.")))

/-- `validateObject` (lines 296-331): Type error when the schema declares no
`properties`; otherwise run the property loop starting from the freshly
created empty result map. -/
def validateObject (fuel : ℕ) (name : String) (ty fm : Option String)
    (props : Option (List (String × Schema))) (req : Option (List String))
    (value : Val) : Option (Except VErr Val) :=
  match fuel with
  | 0 => none
  | f + 1 =>
    match props with
    | none => some (.error (TypeValidationError name ty fm (some value)
        "Properties not found."))
    | some ps =>
      match validatePropsLoop f ps req value [] with
      | none => none
      | some (.error e) => some (.error e)
      | some (.ok acc) => some (.ok (.obj acc))

/-- The `_.forOwn(properties, ...)` loop of `validateObject` (lines
302-328): read the property's raw value, apply the required/default/skip
logic, validate via `validateValue`, and assign the validated value onto the
result map.  `$ref` markers on a property are modelled as already resolved
(see the module comment). -/
def validatePropsLoop (fuel : ℕ) (props : List (String × Schema))
    (req : Option (List String)) (value : Val) (acc : List (String × Val)) :
    Option (Except VErr (List (String × Val))) :=
  match fuel with
  | 0 => none
  | f + 1 =>
    match props with
    | [] => some (.ok acc)
    | (pn, pinfo) :: rest =>
      match jsIndex value pn with
      | .error e => some (.error e)
      | .ok pv0 =>
        let step : Except VErr (Option Val) :=
          if (req.getD []).contains pn then
            match pv0 with
            | none => .error (RequiredValidationError pn pinfo.ty pinfo.fm none "")
            | some pv => .ok (some pv)
          else
            match pv0 with
            | none =>
              match pinfo.dflt with
              | some d => .ok (some d)
              | none => .ok none
            | some pv => .ok (some pv)
        match step with
        | .error e => some (.error e)
        | .ok none => validatePropsLoop f rest req value acc
        | .ok (some pv) =>
          match validateValue f pn pinfo.ty pinfo.fm pinfo.nullable pinfo.items
              pinfo.props pinfo.req pv with
          | none => none
          | some (.error e) => some (.error e)
          | some (.ok w) => validatePropsLoop f rest req value (assocSet acc pn w)

/-- `validateArray` (lines 278-294): Type error unless the raw value is an
array; Type error when `items` is absent; then validate each element.  The
`$ref` indirection on `items` is modelled as already resolved. -/
def validateArray (fuel : ℕ) (name : String) (ty fm : Option String)
    (items : Option Schema) (values : Val) : Option (Except VErr Val) :=
  match fuel with
  | 0 => none
  | f + 1 =>
    match values with
    | .arr vs =>
      match items with
      | none => some (.error (TypeValidationError name ty fm (some (.arr vs))
          "Items not found."))
      | some it =>
        match validateItemsLoop f name it vs with
        | none => none
        | some (.error e) => some (.error e)
        | some (.ok ws) => some (.ok (.arr ws))
    | v => some (.error (TypeValidationError name ty fm (some v) "Not an 'array'."))

/-- The `_.map(values, ...)` loop of `validateArray` (lines 291-293): each
element is validated by `validateValueType` applied to the item schema's
fields, with `undefined` passed for the `items` parameter (so elements of
type `array` always fail with "Items not found") and no `x-nullable`
pre-check (elements skip `validateValue`). -/
def validateItemsLoop (fuel : ℕ) (name : String) (it : Schema)
    (vs : List Val) : Option (Except VErr (List Val)) :=
  match fuel with
  | 0 => none
  | f + 1 =>
    match vs with
    | [] => some (.ok [])
    | v :: rest =>
      match validateValueType f name it.ty it.fm it.nullable none it.props it.req v with
      | none => none
      | some (.error e) => some (.error e)
      | some (.ok w) =>
        match validateItemsLoop f name it rest with
        | none => none
        | some (.error e) => some (.error e)
        | some (.ok ws) => some (.ok (w :: ws))

end

/-- `validateSchema` (lines 366-379): the request-body entry point — Type
error when no schema is given, and the outermost schema type must be
`object` or `array`. -/
def validateSchema (fuel : ℕ) (name : String) (ty fm : Option String)
    (schema : Option Schema) (value : Val) : Option (Except VErr Val) :=
  match fuel with
  | 0 => none
  | f + 1 =>
    match schema with
    | none => some (.error (TypeValidationError name ty fm (some value)
        "Schema not found."))
    | some sch =>
      match sch.ty with
      | some "object" => validateObject f name ty fm sch.props sch.req value
      | some "array" => validateArray f name ty fm sch.items value
      | _ => some (.error (TypeValidationError name ty fm (some value)
          ("Unsupported schema type: '" ++ optStr sch.ty ++ "'.")))

/-! ## Parameter validation (part_001 lines 381-446) -/

/-- A parameter definition from the spec document: `name`, `in` (the source
location class), `required`, scalar `type`/`format`/`x-nullable`/`items`
(non-body), a full schema (body), and `default`. -/
structure ParamDef where
  name : String
  inSrc : Option String
  required : Option Bool
  ty : Option String
  fm : Option String
  nullable : Option Bool
  items : Option Schema
  schema : Option Schema
  dflt : Option Val

/-- `new ParameterValidationError(parameterDefinition, parameterValue,
cause)`: the wrapper every failure of `validateParameter` is rethrown as. -/
inductive PErr where
  | parameterValidationError (pd : ParamDef) (pv : Option Val) (cause : VErr) : PErr

/-- The body of `validateParameter`'s try block after presence handling
(lines 396-400), together with the catch clause (lines 401-403): dispatch to
`validateSchema` for a body parameter and to `validateValue` otherwise
(`properties` and `required` passed as `undefined`), wrapping any thrown
error in a `ParameterValidationError` that carries the possibly-defaulted
`parameterValue` in scope at the throw. -/
def validateParameterDispatch (fuel : ℕ) (pd : ParamDef) (pv : Val) :
    Option (Except PErr (Option Val)) :=
  let r : Option (Except VErr Val) :=
    if pd.inSrc = some "body" then
      validateSchema fuel pd.name pd.ty pd.fm pd.schema pv
    else
      validateValue fuel pd.name pd.ty pd.fm pd.nullable pd.items none none pv
  match r with
  | none => none
  | some (.ok w) => some (.ok (some w))
  | some (.error e) => some (.error (.parameterValidationError pd (some pv) e))

/-- `validateParameter` (lines 381-404): Required error when a required
parameter is absent; default substitution or the "no value, no error" early
return when an optional one is absent; then the schema/value dispatch.  All
errors are wrapped as `ParameterValidationError`. -/
def validateParameter (fuel : ℕ) (pd : ParamDef) (parameterValue : Option Val) :
    Option (Except PErr (Option Val)) :=
  match fuel with
  | 0 => none
  | f + 1 =>
    if pd.required.getD false then
      match parameterValue with
      | none => some (.error (.parameterValidationError pd none
          (RequiredValidationError pd.name pd.ty pd.fm none "")))
      | some pv => validateParameterDispatch f pd pv
    else
      match parameterValue with
      | none =>
        match pd.dflt with
        | some d => validateParameterDispatch f pd d
        | none => some (.ok parameterValue)
      | some pv => validateParameterDispatch f pd pv

/-- The mutable request state visible to the validator: `ctx.params` (path
parameters), `ctx.query`, and `ctx.request.body`.  The two parameter maps
store `Option Val` values so that a key set to `undefined` is
representable. -/
structure Ctx where
  params : List (String × Option Val)
  query : List (String × Option Val)
  body : Option Val

/-- A failure escaping `validateParameters`: a `ParameterValidationError` or
a built-in JavaScript TypeError raised while indexing an absent body. -/
inductive ReqErr where
  | perr (e : PErr) : ReqErr
  | native (msg : String) : ReqErr

/-- Read of `parameterSource[name]` on a `List (String × Option Val)`
source: an absent key and a key set to `undefined` are both `undefined`. -/
def srcGet (l : List (String × Option Val)) (k : String) : Option Val :=
  ((l.find? (fun p => p.1 = k)).map Prod.snd).join

def srcSet : List (String × Option Val) → String → Option Val →
    List (String × Option Val)
  | [], k, v => [(k, v)]
  | (k', x) :: t, k, v =>
    if k' = k then (k, v) :: t else (k', x) :: srcSet t k v

/-- `getRequestParameterSource` (lines 425-438) combined with
`getParameterValue` (lines 406-414): select the source by the declared `in`
(path → `ctx.params`, query → `ctx.query`, body/formData →
`ctx.request.body`; anything else throws a `ParameterValidationError`
wrapping a `SourceValidationError`), then return the source itself for a
body parameter and `source[name]` otherwise.  For formData the read indexes
the parsed body (a TypeError on an undefined or null body). -/
def getParameterValue (ctx : Ctx) (pd : ParamDef) : Except ReqErr (Option Val) :=
  match pd.inSrc with
  | some "path" => .ok (srcGet ctx.params pd.name)
  | some "query" => .ok (srcGet ctx.query pd.name)
  | some "body" => .ok ctx.body
  | some "formData" =>
    match ctx.body with
    | none => .error (.native ("Cannot read properties of undefined (reading '"
        ++ pd.name ++ "')."))
    | some b =>
      match jsIndex b pd.name with
      | .error (.native m) => .error (.native m)
      | .error e => .error (.perr (.parameterValidationError pd none e))
      | .ok v => .ok v
  | s => .error (.perr (.parameterValidationError pd none
      (SourceValidationError pd.name pd.ty pd.fm none
        ("Unknown source: '" ++ optStr s ++ "'."))))

/-- `setParameterValue` (lines 416-423): a body parameter replaces
`ctx.request.body`; otherwise the validated value is assigned onto the
selected source.  A formData write mutates the parsed body object (strict
mode raises a TypeError when that target is not an object; writing
`undefined` is modelled as erasing the key, which is read-equivalent). -/
def setParameterValue (ctx : Ctx) (pd : ParamDef) (w : Option Val) :
    Except ReqErr Ctx :=
  match pd.inSrc with
  | some "body" => .ok { ctx with body := w }
  | some "path" => .ok { ctx with params := srcSet ctx.params pd.name w }
  | some "query" => .ok { ctx with query := srcSet ctx.query pd.name w }
  | some "formData" =>
    match ctx.body with
    | some (.obj l) =>
      match w with
      | some v => .ok { ctx with body := some (.obj (assocSet l pd.name v)) }
      | none => .ok { ctx with body := some (.obj (l.filter (fun p => p.1 ≠ pd.name))) }
    | _ => .error (.native ("Cannot create property '" ++ pd.name ++ "'."))
  | s => .error (.perr (.parameterValidationError pd none
      (SourceValidationError pd.name pd.ty pd.fm none
        ("Unknown source: '" ++ optStr s ++ "'."))))

/-- `validateParameters` (lines 440-446): `_.forEach` over the parameter
definitions — read, validate, write back; a thrown error propagates out of
the loop immediately, leaving later definitions unprocessed. -/
def validateParameters (fuel : ℕ) (defs : List ParamDef) (ctx : Ctx) :
    Option (Except ReqErr Ctx) :=
  match defs with
  | [] => some (.ok ctx)
  | pd :: rest =>
    match getParameterValue ctx pd with
    | .error e => some (.error e)
    | .ok pv =>
      match validateParameter fuel pd pv with
      | none => none
      | some (.error e) => some (.error (.perr e))
      | some (.ok w) =>
        match setParameterValue ctx pd w with
        | .error e => some (.error e)
        | .ok ctx' => validateParameters fuel rest ctx'

/-! ## Heap-level model of the descent (for the frame guarantee)

The pure model above cannot even express mutation of the raw input, so the
no-mutation guarantee is verified against a second embedding of
`validateValue`/`validateObject`/`validateArray` in which maps and sequences
live in an explicit heap: values are scalars or references, `validateObject`
allocates its fresh result object first (`const actualValue = {}`) and then
mutates that cell one property at a time exactly as the source does, and all
reads of the raw input go through the heap.  Scalar validation delegates to
the pure scalar validators after dereferencing the value (string coercion of
a reference only ever reaches them through `parseInt`/`parseFloat`/
`parseBoolean`, which the dereferenced snapshot reproduces). -/

/-- A heap-level runtime value: a scalar or a reference to a heap cell. -/
inductive HVal where
  | vnull : HVal
  | vbool (b : Bool) : HVal
  | vnum (n : JSNum) : HVal
  | vstr (s : String) : HVal
  | vdate (s : String) : HVal
  | vref (a : ℕ) : HVal

/-- A heap cell: a string-keyed map or a sequence. -/
inductive HCell where
  | hobj (fields : List (String × HVal)) : HCell
  | harr (elems : List HVal) : HCell

/-- The heap: cells indexed by address, and the next fresh address. -/
structure Heap where
  cells : List (ℕ × HCell)
  next : ℕ

def lookupH (h : Heap) (a : ℕ) : Option HCell :=
  (h.cells.find? (fun p => p.1 = a)).map Prod.snd

/-- Allocate a fresh cell, returning the new heap and the fresh address. -/
def allocH (h : Heap) (c : HCell) : Heap × ℕ :=
  ({ cells := (h.next, c) :: h.cells, next := h.next + 1 }, h.next)

/-- Overwrite the cell at an existing address. -/
def setCellH (h : Heap) (a : ℕ) (c : HCell) : Heap :=
  { h with cells := h.cells.map (fun p => if p.1 = a then (a, c) else p) }

def hAssocSet : List (String × HVal) → String → HVal → List (String × HVal)
  | [], k, v => [(k, v)]
  | (k', x) :: t, k, v =>
    if k' = k then (k, v) :: t else (k', x) :: hAssocSet t k v

/-- The heap-level property read `value[propertyName]`. -/
def hIndex (h : Heap) (v : HVal) (k : String) : Except VErr (Option HVal) :=
  match v with
  | .vnull => .error (.native ("Cannot read properties of null (reading '" ++ k ++ "')."))
  | .vref a =>
    match lookupH h a with
    | some (.hobj fs) => .ok ((fs.find? (fun p => p.1 = k)).map Prod.snd)
    | _ => .ok none
  | _ => .ok none

/-- Read back a heap value as a pure value (fuel bounds reference depth;
cyclic inputs, which the pure model cannot express either, fall back to
null).  Used to hand scalars to the pure scalar validators and to embed the
offending raw value in error objects. -/
def derefH : ℕ → Heap → HVal → Val
  | _, _, .vnull => .null
  | _, _, .vbool b => .bool b
  | _, _, .vnum n => .num n
  | _, _, .vstr s => .str s
  | _, _, .vdate s => .date s
  | 0, _, .vref _ => .null
  | f + 1, h, .vref a =>
    match lookupH h a with
    | some (.hobj fs) => .obj (fs.map (fun p => (p.1, derefH f h p.2)))
    | some (.harr es) => .arr (es.map (fun x => derefH f h x))
    | none => .null

/-- Full dereference with fuel adequate for any acyclic heap. -/
def derefFull (h : Heap) (v : HVal) : Val := derefH (h.cells.length + 1) h v

/-- The scalar validators only ever return scalar values; view such a result
at the heap level. -/
def toHScalar : Val → HVal
  | .null => .vnull
  | .bool b => .vbool b
  | .num n => .vnum n
  | .str s => .vstr s
  | .date s => .vdate s
  | .obj _ => .vnull
  | .arr _ => .vnull

mutual

/-- Copy a schema-resident (pure) default value into the heap, allocating
fresh cells for its maps and sequences: the spec document's value enters the
request heap here. -/
def injectVal : ℕ → Heap → Val → Heap × HVal
  | _, h, .null => (h, .vnull)
  | _, h, .bool b => (h, .vbool b)
  | _, h, .num n => (h, .vnum n)
  | _, h, .str s => (h, .vstr s)
  | _, h, .date s => (h, .vdate s)
  | 0, h, .obj _ => (h, .vnull)
  | 0, h, .arr _ => (h, .vnull)
  | f + 1, h, .obj fs =>
    let (h1, fs') := injectFields f h fs
    let (h2, a) := allocH h1 (.hobj fs')
    (h2, .vref a)
  | f + 1, h, .arr es =>
    let (h1, es') := injectElems f h es
    let (h2, a) := allocH h1 (.harr es')
    (h2, .vref a)

def injectFields : ℕ → Heap → List (String × Val) → Heap × List (String × HVal)
  | 0, h, _ => (h, [])
  | _ + 1, h, [] => (h, [])
  | f + 1, h, (k, v) :: r =>
    let (h1, w) := injectVal f h v
    let (h2, ws) := injectFields f h1 r
    (h2, (k, w) :: ws)

def injectElems : ℕ → Heap → List Val → Heap × List HVal
  | 0, h, _ => (h, [])
  | _ + 1, h, [] => (h, [])
  | f + 1, h, v :: r =>
    let (h1, w) := injectVal f h v
    let (h2, ws) := injectElems f h1 r
    (h2, w :: ws)

end

mutual

/-- Heap-level `validateValue`: identical control flow to the pure model. -/
def validateValueH (fuel : ℕ) (name : String) (ty fm : Option String)
    (nullable : Option Bool) (items : Option Schema)
    (props : Option (List (String × Schema))) (req : Option (List String))
    (h : Heap) (v : HVal) : Option (Heap × Except VErr HVal) :=
  match fuel with
  | 0 => none
  | f + 1 =>
    match v with
    | .vnull =>
      match nullable with
      | some b =>
        if b then some (h, .ok .vnull)
        else some (h, .error (NullableValidationError name ty fm (some .null)
          "Can not be 'null'."))
      | none => validateValueTypeH f name ty fm nullable items props req h .vnull
    | v => validateValueTypeH f name ty fm nullable items props req h v

/-- Heap-level `validateValueType`: scalar types never touch the heap. -/
def validateValueTypeH (fuel : ℕ) (name : String) (ty fm : Option String)
    (nullable : Option Bool) (items : Option Schema)
    (props : Option (List (String × Schema))) (req : Option (List String))
    (h : Heap) (v : HVal) : Option (Heap × Except VErr HVal) :=
  match fuel with
  | 0 => none
  | f + 1 =>
    match ty with
    | some "boolean" => some (h, (validateBoolean name ty fm (derefFull h v)).map toHScalar)
    | some "integer" => some (h, (validateInteger name ty fm (derefFull h v)).map toHScalar)
    | some "number" => some (h, (validateNumber name ty fm (derefFull h v)).map toHScalar)
    | some "string" => some (h, (validateString name ty fm (derefFull h v)).map toHScalar)
    | some "object" => validateObjectH f name ty fm props req h v
    | some "array" => validateArrayH f name ty fm items h v
    | _ => some (h, .error (TypeValidationError name ty fm (some (derefFull h v))
        ("Unsupported type: '" ++ optStr ty ++ "'.")))

/-- Heap-level `validateObject`: allocate the fresh result object first
(`const actualValue = {}`), then check `properties` and run the loop, which
mutates only that fresh cell. -/
def validateObjectH (fuel : ℕ) (name : String) (ty fm : Option String)
    (props : Option (List (String × Schema))) (req : Option (List String))
    (h : Heap) (v : HVal) : Option (Heap × Except VErr HVal) :=
  match fuel with
  | 0 => none
  | f + 1 =>
    let (h1, a) := allocH h (.hobj [])
    match props with
    | none => some (h1, .error (TypeValidationError name ty fm (some (derefFull h v))
        "Properties not found."))
    | some ps =>
      match validatePropsLoopH f ps req v a h1 with
      | none => none
      | some (h2, .error e) => some (h2, .error e)
      | some (h2, .ok _) => some (h2, .ok (.vref a))

/-- Heap-level property loop of `validateObject`: read the raw property from
the heap, apply required/default/skip, validate, then assign the result onto
the fresh cell `a` (`actualValue[propertyName] = ...`). -/
def validatePropsLoopH (fuel : ℕ) (props : List (String × Schema))
    (req : Option (List String)) (value : HVal) (a : ℕ) (h : Heap) :
    Option (Heap × Except VErr Unit) :=
  match fuel with
  | 0 => none
  | f + 1 =>
    match props with
    | [] => some (h, .ok ())
    | (pn, pinfo) :: rest =>
      match hIndex h value pn with
      | .error e => some (h, .error e)
      | .ok pv0 =>
        let cont : Heap → HVal → Option (Heap × Except VErr Unit) := fun hh pv =>
          match validateValueH f pn pinfo.ty pinfo.fm pinfo.nullable pinfo.items
              pinfo.props pinfo.req hh pv with
          | none => none
          | some (h2, .error e) => some (h2, .error e)
          | some (h2, .ok w) =>
            let h3 :=
              match lookupH h2 a with
              | some (.hobj fs) => setCellH h2 a (.hobj (hAssocSet fs pn w))
              | _ => h2
            validatePropsLoopH f rest req value a h3
        if (req.getD []).contains pn then
          match pv0 with
          | none => some (h, .error (RequiredValidationError pn pinfo.ty pinfo.fm none ""))
          | some pv => cont h pv
        else
          match pv0 with
          | none =>
            match pinfo.dflt with
            | some d =>
              let (hd, dv) := injectVal f h d
              cont hd dv
            | none => validatePropsLoopH f rest req value a h
          | some pv => cont h pv

/-- Heap-level `validateArray`: the raw value must reference a sequence
cell; elements are validated in order and a fresh sequence cell is allocated
for the result (`_.map` builds a new array). -/
def validateArrayH (fuel : ℕ) (name : String) (ty fm : Option String)
    (items : Option Schema) (h : Heap) (v : HVal) :
    Option (Heap × Except VErr HVal) :=
  match fuel with
  | 0 => none
  | f + 1 =>
    match v with
    | .vref a =>
      match lookupH h a with
      | some (.harr es) =>
        match items with
        | none => some (h, .error (TypeValidationError name ty fm
            (some (derefFull h v)) "Items not found."))
        | some it =>
          match validateItemsLoopH f name it h es with
          | none => none
          | some (h1, .error e) => some (h1, .error e)
          | some (h1, .ok ws) =>
            let (h2, b) := allocH h1 (.harr ws)
            some (h2, .ok (.vref b))
      | _ => some (h, .error (TypeValidationError name ty fm (some (derefFull h v))
          "Not an 'array'."))
    | v' => some (h, .error (TypeValidationError name ty fm (some (derefFull h v'))
        "Not an 'array'."))

/-- Heap-level element loop of `validateArray` (elements go through
`validateValueType` with `undefined` items, as in the source). -/
def validateItemsLoopH (fuel : ℕ) (name : String) (it : Schema) (h : Heap)
    (vs : List HVal) : Option (Heap × Except VErr (List HVal)) :=
  match fuel with
  | 0 => none
  | f + 1 =>
    match vs with
    | [] => some (h, .ok [])
    | v :: rest =>
      match validateValueTypeH f name it.ty it.fm it.nullable none it.props it.req h v with
      | none => none
      | some (h1, .error e) => some (h1, .error e)
      | some (h1, .ok w) =>
        match validateItemsLoopH f name it h1 rest with
        | none => none
        | some (h2, .error e) => some (h2, .error e)
        | some (h2, .ok ws) => some (h2, .ok (w :: ws))

end

/-! ## Theorems -/

/-- The error-constructor kind of a failure, when it is one of the library's
validation errors. -/
def VErr.kind? : VErr → Option ErrKind
  | .thrown k _ _ _ _ _ => some k
  | .native _ => none

/-- The ten decimal digit characters; `natDigits` only ever emits these. -/
theorem digitChar_mem {n : ℕ} (h : n < 10) :
    digitChar n ∈ ['0', '1', '2', '3', '4', '5', '6', '7', '8', '9'] := by
  interval_cases n <;> decide

/-- The character-class facts `parseIntStr` needs about a decimal digit. -/
theorem digit_char_facts {c : Char}
    (hc : c ∈ ['0', '1', '2', '3', '4', '5', '6', '7', '8', '9']) :
    isWsChar c = false ∧ c.isDigit = true ∧ c ≠ '-' ∧ c ≠ '+' := by
  fin_cases hc <;> exact ⟨by decide, by decide, by decide, by decide⟩

theorem natDigits_mem : ∀ (f n : ℕ), ∀ c ∈ natDigits f n,
    c ∈ ['0', '1', '2', '3', '4', '5', '6', '7', '8', '9'] := by
  intro f
  induction f with
  | zero => intro n c hc; simp [natDigits] at hc
  | succ f ih =>
    intro n c hc
    rw [natDigits] at hc
    split at hc
    · rename_i hn
      simp only [List.mem_singleton] at hc
      exact hc ▸ digitChar_mem hn
    · rcases List.mem_append.mp hc with h | h
      · exact ih (n / 10) c h
      · simp only [List.mem_singleton] at h
        exact h ▸ digitChar_mem (Nat.mod_lt _ (by norm_num))

theorem natDigits_ne_nil (f n : ℕ) (h : 0 < f) : natDigits f n ≠ [] := by
  match f with
  | g + 1 =>
    rw [natDigits]
    split
    · simp
    · simp

theorem digitVal_digitChar {n : ℕ} (h : n < 10) : digitVal (digitChar n) = n := by
  interval_cases n <;> decide

theorem natOfDigits_append (ds : List Char) (c : Char) :
    natOfDigits (ds ++ [c]) = 10 * natOfDigits ds + digitVal c := by
  simp [natOfDigits, List.foldl_append]

theorem natDigits_roundtrip : ∀ (f n : ℕ), n < 10 ^ f →
    natOfDigits (natDigits f n) = n := by
  intro f
  induction f with
  | zero => intro n h; interval_cases n; rfl
  | succ f ih =>
    intro n h
    rw [natDigits]
    by_cases hn : n < 10
    · rw [if_pos hn]
      simp [natOfDigits, digitVal_digitChar hn]
    · rw [if_neg hn, natOfDigits_append,
        ih (n / 10) (Nat.div_lt_of_lt_mul (by rw [pow_succ, mul_comm] at h; exact h)),
        digitVal_digitChar (Nat.mod_lt _ (by norm_num))]
      omega

theorem takeWhile_all {p : Char → Bool} :
    ∀ {l : List Char}, (∀ c ∈ l, p c = true) → l.takeWhile p = l := by
  intro l
  induction l with
  | nil => intro _; rfl
  | cons a t ih =>
    intro h
    rw [List.takeWhile_cons, if_pos (h a (by simp))]
    rw [ih (fun c hc => h c (by simp [hc]))]

/-- `parseInt` on a rendered block of decimal digits recovers their value. -/
theorem parseIntStr_digits : ∀ {ds : List Char}, ds ≠ [] →
    (∀ c ∈ ds, c ∈ ['0', '1', '2', '3', '4', '5', '6', '7', '8', '9']) →
    parseIntStr (String.mk ds) = some (natOfDigits ds : ℤ) := by
  intro ds hne hd
  match ds with
  | c :: t =>
    obtain ⟨hws, hdig, hminus, hplus⟩ := digit_char_facts (hd c (by simp))
    have hsign : (match c :: t with
        | '-' :: r => (true, r)
        | '+' :: r => (false, r)
        | r => ((false : Bool), r)) = ((false : Bool), c :: t) := by
      have hc0 := hd c (by simp)
      fin_cases hc0 <;> rfl
    have ht : List.takeWhile Char.isDigit (c :: t) = c :: t :=
      takeWhile_all (fun x hx => (digit_char_facts (hd x hx)).2.1)
    unfold parseIntStr
    rw [show (String.mk (c :: t)).toList = c :: t from rfl]
    rw [List.dropWhile_cons, if_neg (by simp [hws])]
    dsimp only []
    rw [hsign]
    dsimp only []
    rw [ht]
    simp

/-- `parseInt` on a minus sign followed by decimal digits. -/
theorem parseIntStr_neg_digits : ∀ {ds : List Char}, ds ≠ [] →
    (∀ c ∈ ds, c ∈ ['0', '1', '2', '3', '4', '5', '6', '7', '8', '9']) →
    parseIntStr (String.mk ('-' :: ds)) = some (-(natOfDigits ds : ℤ)) := by
  intro ds hne hd
  match ds with
  | c :: t =>
    have hsign : (match '-' :: c :: t with
        | '-' :: r => (true, r)
        | '+' :: r => (false, r)
        | r => ((false : Bool), r)) = ((true : Bool), c :: t) := rfl
    have ht : List.takeWhile Char.isDigit (c :: t) = c :: t :=
      takeWhile_all (fun x hx => (digit_char_facts (hd x hx)).2.1)
    unfold parseIntStr
    rw [show (String.mk ('-' :: c :: t)).toList = '-' :: c :: t from rfl]
    rw [List.dropWhile_cons, if_neg (by decide)]
    dsimp only []
    rw [hsign]
    dsimp only []
    rw [ht]
    simp

set_option exponentiation.threshold 500 in
/-- An integer of magnitude below 1e21 renders in plain notation, so
`parseInt` on the number recovers it exactly. -/
theorem parseIntVal_plain (n : ℤ) (h : n.natAbs < 10 ^ 21) :
    parseIntVal (.num (.fin ((n : ℚ)))) = some n := by
  have hne : natDigits 400 n.natAbs ≠ [] := natDigits_ne_nil 400 n.natAbs (by norm_num)
  have hmem := natDigits_mem 400 n.natAbs
  have hrt : natOfDigits (natDigits 400 n.natAbs) = n.natAbs :=
    natDigits_roundtrip 400 n.natAbs
      (lt_of_lt_of_le h (Nat.pow_le_pow_right (by norm_num) (by norm_num)))
  simp only [parseIntVal, jsStr, jsToString, qToString, Rat.num_intCast,
    Rat.den_intCast, eq_self_iff_true, if_true]
  rw [if_pos h]
  unfold intRender
  by_cases hs : n < 0
  · rw [if_pos hs]
    rw [show ((['-'] : List Char) ++ natDigits 400 n.natAbs)
        = '-' :: natDigits 400 n.natAbs from rfl]
    rw [parseIntStr_neg_digits hne hmem, hrt]
    congr 1
    omega
  · rw [if_neg hs]
    rw [show (([] : List Char) ++ natDigits 400 n.natAbs)
        = natDigits 400 n.natAbs from rfl]
    rw [parseIntStr_digits hne hmem, hrt]
    congr 1
    omega

/-- C5 counterexample: the claim's universal out-of-range rejection is false
of the program.  The raw number 1e22 (an exactly representable double, far
above the int32 maximum) string-coerces to "1e+22" — exponent notation —
so `parseInt` reads only the mantissa digit and yields 1; the fractional
check passes (1e22 is integral) and int32 validation accepts, returning 1
instead of rejecting. -/
theorem C5_counterexample :
    jsStr (.num (.fin (mkRat (10 ^ 22) 1))) = "1e+22" ∧
    parseIntVal (.num (.fin (mkRat (10 ^ 22) 1))) = some 1 ∧
    validateInteger "n" (some "integer") (some "int32")
        (.num (.fin (mkRat (10 ^ 22) 1)))
      = .ok (.num (.fin (mkRat 1 1))) := by
  refine ⟨by rfl, by rfl, by rfl⟩

/-- C5 (amended): for type integer with format int32, validation accepts
exactly [-2147483648, 2147483647] on the plain-notation region of raw
integer values (magnitude below 1e21, where JavaScript renders the number
as plain digits): in range the value is returned unchanged, out of range it
yields a Format error.  At or above 1e21 the rendering switches to exponent
notation and `parseInt` sees only the mantissa's leading digits, so huge
integers are accepted with a mangled value (see `C5_counterexample`).
String raw values at the boundary behave as claimed: "2147483648" yields a
Format error and "2147483647" is accepted. -/
theorem C5_int32_range :
    (∀ (nm : String) (n : ℤ), -2147483648 ≤ n → n ≤ 2147483647 →
      validateInteger nm (some "integer") (some "int32") (.num (.fin (mkRat n 1)))
        = .ok (.num (.fin (mkRat n 1)))) ∧
    (∀ (nm : String) (n : ℤ), n.natAbs < 10 ^ 21 →
      n < -2147483648 ∨ 2147483647 < n →
      (validateInteger nm (some "integer") (some "int32")
          (.num (.fin (mkRat n 1)))).isOk = false ∧
      (validateInteger nm (some "integer") (some "int32")
          (.num (.fin (mkRat n 1)))).mapError VErr.kind? = .error (some .fmt)) ∧
    (validateInteger "n" (some "integer") (some "int32") (.str "2147483648")
      = .error (FormatValidationError "n" (some "integer") (some "int32")
          (some (.str "2147483648")) "Maximum integer (int32) value: 2147483647.")) ∧
    (validateInteger "n" (some "integer") (some "int32") (.str "2147483647")
      = .ok (.num (.fin (mkRat 2147483647 1)))) := by
  refine ⟨?_, ?_, by rfl, by rfl⟩
  · intro nm n h1 h2
    have hn : n.natAbs < 10 ^ 21 := by
      have : (10 : ℕ) ^ 21 = 1000000000000000000000 := by norm_num
      omega
    simp only [validateInteger, Rat.mkRat_one, parseIntVal_plain n hn, parseFloatVal,
      JSNum.isIntegral, validateIntegerInt32, qLtB, INTEGER_INT32_MAX_VALUE,
      INTEGER_INT32_MIN_VALUE, Rat.num_intCast, Rat.den_intCast]
    norm_num
    rw [if_neg (by omega), if_neg (by omega)]
  · intro nm n hn h
    simp only [validateInteger, Rat.mkRat_one, parseIntVal_plain n hn, parseFloatVal,
      JSNum.isIntegral, validateIntegerInt32, qLtB, INTEGER_INT32_MAX_VALUE,
      INTEGER_INT32_MIN_VALUE, Rat.num_intCast, Rat.den_intCast]
    norm_num
    rcases h with h | h
    · rw [if_neg (by omega), if_pos (by omega)]
      exact ⟨rfl, rfl⟩
    · rw [if_pos (by omega)]
      exact ⟨rfl, rfl⟩

/-- Witness for C5 at concrete inputs: 5 is accepted unchanged and
2147483648 (max + 1, as an integer raw value) is rejected with a Format
error. -/
theorem C5_int32_range_witness :
    validateInteger "w" (some "integer") (some "int32") (.num (.fin (mkRat 5 1)))
        = .ok (.num (.fin (mkRat 5 1))) ∧
    (validateInteger "w" (some "integer") (some "int32")
        (.num (.fin (mkRat 2147483648 1)))).mapError VErr.kind? = .error (some .fmt) :=
  ⟨C5_int32_range.1 "w" 5 (by norm_num) (by norm_num),
   (C5_int32_range.2.1 "w" 2147483648 (by norm_num) (Or.inr (by norm_num))).2⟩

/-- C6 counterexample: the raw value "Infinity" parses to a non-finite
number, yet double validation accepts it and returns positive infinity —
refuting the claim that a non-finite parse is not accepted as a valid
double. -/
theorem C6_counterexample :
    validateNumber "n" (some "number") (some "double") (.str "Infinity")
      = .ok (.num (.inf true)) := by rfl

/-- C6 (amended): for type number with format double, validation yields a
Type error exactly on raw values whose float parse is NaN, and otherwise
returns the parsed number unchanged — every finite float is accepted
unchanged, but so are the non-finite parses Infinity and -Infinity:
`validateNumberDouble` imposes no finiteness constraint at all. -/
theorem C6_double_semantics :
    (∀ (nm : String) (v : Val), parseFloatVal v = .nan →
      validateNumber nm (some "number") (some "double") v
        = .error (TypeValidationError nm (some "number") (some "double") (some v)
            "Not a 'number'.")) ∧
    (∀ (nm : String) (v : Val) (q : ℚ), parseFloatVal v = .fin q →
      validateNumber nm (some "number") (some "double") v = .ok (.num (.fin q))) ∧
    (∀ (nm : String) (v : Val) (b : Bool), parseFloatVal v = .inf b →
      validateNumber nm (some "number") (some "double") v = .ok (.num (.inf b))) := by
  refine ⟨?_, ?_, ?_⟩
  · intro nm v h
    unfold validateNumber
    rw [h]
  · intro nm v q h
    unfold validateNumber
    rw [h]
    rfl
  · intro nm v b h
    unfold validateNumber
    rw [h]
    rfl

/-- Witness for C6 (amended) at concrete inputs: "abc" does not parse (Type
error), "1.5" is a finite parse accepted unchanged, "-Infinity" is a
non-finite parse accepted unchanged. -/
theorem C6_double_semantics_witness :
    validateNumber "w" (some "number") (some "double") (.str "abc")
      = .error (TypeValidationError "w" (some "number") (some "double")
          (some (.str "abc")) "Not a 'number'.") ∧
    validateNumber "w" (some "number") (some "double") (.str "1.5")
      = .ok (.num (.fin (mkRat 15 10))) ∧
    validateNumber "w" (some "number") (some "double") (.str "-Infinity")
      = .ok (.num (.inf false)) :=
  ⟨C6_double_semantics.1 "w" (.str "abc") (by rfl),
   C6_double_semantics.2.1 "w" (.str "1.5") (mkRat 15 10) (by rfl),
   C6_double_semantics.2.2 "w" (.str "-Infinity") false (by rfl)⟩

/-- C10: for integer validation, a raw string with a numeric prefix and
non-numeric trailing characters is not rejected with a Type error; the value
is accepted whenever the float parse has no fractional part, and the result
is the integer parse of the leading digits — "12abc" yields 12, and "1e3"
yields 1 although its float parse is 1000. -/
theorem C10_integer_trailing_garbage :
    (∀ (nm : String) (fm : Option String) (s : String) (n : ℤ),
      parseIntStr s = some n → (parseFloatStr s).isIntegral = true →
      (validateInteger nm (some "integer") fm (.str s)).mapError VErr.kind?
        ≠ .error (some .typ)) ∧
    (∀ (nm : String) (s : String) (n : ℤ),
      parseIntStr s = some n → (parseFloatStr s).isIntegral = true →
      -2147483648 ≤ n → n ≤ 2147483647 →
      validateInteger nm (some "integer") (some "int32") (.str s)
        = .ok (.num (.fin (mkRat n 1)))) ∧
    validateInteger "p" (some "integer") (some "int32") (.str "12abc")
      = .ok (.num (.fin (mkRat 12 1))) ∧
    validateInteger "p" (some "integer") (some "int32") (.str "1e3")
      = .ok (.num (.fin (mkRat 1 1))) ∧
    parseFloatStr "1e3" = .fin (mkRat 1000 1) := by
  refine ⟨?_, ?_, by rfl, by rfl, by rfl⟩
  · intro nm fm s n h1 h2
    simp only [validateInteger, parseIntVal, parseFloatVal, h1, h2]
    simp only [Bool.not_true, Bool.false_eq_true, if_false]
    split
    · simp only [validateIntegerInt32]
      split
      · simp [Except.mapError, FormatValidationError, VErr.kind?]
      · split
        · simp [Except.mapError, FormatValidationError, VErr.kind?]
        · simp [Except.mapError]
    · simp only [validateIntegerInt64]
      split
      · simp [Except.mapError, FormatValidationError, VErr.kind?]
      · split
        · simp [Except.mapError, FormatValidationError, VErr.kind?]
        · simp [Except.mapError]
    · simp [Except.mapError, FormatValidationError, VErr.kind?]
  · intro nm s n h1 h2 h3 h4
    simp only [validateInteger, parseIntVal, parseFloatVal, h1, h2]
    simp only [Bool.not_true, Bool.false_eq_true, if_false]
    simp only [validateIntegerInt32, qLtB, INTEGER_INT32_MAX_VALUE,
      INTEGER_INT32_MIN_VALUE, Rat.mkRat_one, Rat.num_intCast, Rat.den_intCast]
    norm_num
    rw [if_neg (by omega), if_neg (by omega)]

/-- Witness for C10 at the concrete input "12abc". -/
theorem C10_integer_trailing_garbage_witness :
    (validateInteger "p" (some "integer") (some "int32") (.str "12abc")).mapError
        VErr.kind? ≠ .error (some .typ) ∧
    validateInteger "p" (some "integer") (some "int32") (.str "12abc")
      = .ok (.num (.fin (mkRat 12 1))) :=
  ⟨C10_integer_trailing_garbage.1 "p" (some "int32") "12abc" 12 (by rfl) (by rfl),
   C10_integer_trailing_garbage.2.1 "p" "12abc" 12 (by rfl) (by rfl)
     (by norm_num) (by norm_num)⟩

/-- C8: evaluating the error layer at a failing input.  The validator throws
a Nullable error for a null `publisher` of declared type string, but the
constructed error object stores `code = undefined` (the `CODES` table has no
`VALIDATION_NULLABLE` entry), stores the raw value in its `name` slot, and
stores `undefined` in its declared-type, declared-format and offending-value
slots — for every validation error kind, because each subclass passes only
three of the six `ValidationError` parameters. -/
theorem C8_stored_error_fields :
    validateValue 2 "publisher" (some "string") none (some false) none none none .null
      = some (.error (NullableValidationError "publisher" (some "string") none
          (some .null) "Can not be 'null'.")) ∧
    storedOfThrown .nul "publisher" (some "string") none (some .null) "Can not be 'null'."
      = ⟨none, "Name: 'publisher'. Value is nullable.", some .null, none, none, none⟩ ∧
    codeOf "VALIDATION_NULLABLE" = none ∧
    (∀ (k : ErrKind) (nm : String) (ty fm : Option String) (v : Option Val) (m : String),
      (storedOfThrown k nm ty fm v m).ty = none ∧
      (storedOfThrown k nm ty fm v m).fm = none ∧
      (storedOfThrown k nm ty fm v m).value = none ∧
      (storedOfThrown k nm ty fm v m).name = v) := by
  refine ⟨by rfl, by rfl, by rfl, ?_⟩
  intro k nm ty fm v m
  cases k <;> exact ⟨rfl, rfl, rfl, rfl⟩

/-- C1 counterexample: with `x-nullable` undeclared, validating an explicit
null against a string schema yields a Type error, not the Nullable error the
claim requires for the undeclared case. -/
theorem C1_counterexample :
    validateValue 2 "publisher" (some "string") none none none none none .null
      = some (.error (TypeValidationError "publisher" (some "string") none
          (some .null) "Not a 'string'.")) ∧
    (TypeValidationError "publisher" (some "string") none (some .null)
        "Not a 'string'.").kind? = some .typ := ⟨rfl, rfl⟩

/-- Helper: the property loop on a null raw value either succeeds (no
declared properties remain) or fails with a built-in TypeError from reading
a property of null — never with a Nullable error. -/
theorem propsLoopNull_kind (g : ℕ) (ps : List (String × Schema)) (rq : Option (List String))
    (acc : List (String × Val)) (e : VErr)
    (h : validatePropsLoop g ps rq .null acc = some (.error e)) : e.kind? ≠ some .nul := by
  match g, ps with
  | 0, _ => simp [validatePropsLoop.eq_def] at h
  | g + 1, [] => simp [validatePropsLoop.eq_def] at h
  | g + 1, (pn, pi) :: rest =>
    rw [validatePropsLoop.eq_def] at h
    simp only [jsIndex, Option.some.injEq, Except.error.injEq] at h
    subst h
    simp [VErr.kind?]

/-- Helper: the type dispatch on a null raw value never produces a Nullable
error, whatever the declared type. -/
theorem vvtNull_kind (fuel : ℕ) (nm : String) (ty fm : Option String) (nb : Option Bool)
    (it : Option Schema) (pr : Option (List (String × Schema))) (rq : Option (List String))
    (e : VErr) (h : validateValueType fuel nm ty fm nb it pr rq .null = some (.error e)) :
    e.kind? ≠ some .nul := by
  match fuel with
  | 0 => simp [validateValueType.eq_def] at h
  | f + 1 =>
    rw [validateValueType.eq_def] at h
    split at h
    · simp at h
    · rename_i f' hf
      obtain rfl : f' = f := by omega
      split at h
      · rw [show validateBoolean nm (some "boolean") fm Val.null
            = .error (TypeValidationError nm (some "boolean") fm (some .null)
              "Not a 'boolean'.") from rfl] at h
        simp only [Option.some.injEq, Except.error.injEq] at h
        subst h; simp [VErr.kind?, TypeValidationError]
      · rw [show validateInteger nm (some "integer") fm Val.null
            = .error (TypeValidationError nm (some "integer") fm (some .null)
              "Not an 'integer'.") from rfl] at h
        simp only [Option.some.injEq, Except.error.injEq] at h
        subst h; simp [VErr.kind?, TypeValidationError]
      · rw [show validateNumber nm (some "number") fm Val.null
            = .error (TypeValidationError nm (some "number") fm (some .null)
              "Not a 'number'.") from rfl] at h
        simp only [Option.some.injEq, Except.error.injEq] at h
        subst h; simp [VErr.kind?, TypeValidationError]
      · rw [show validateString nm (some "string") fm Val.null
            = .error (TypeValidationError nm (some "string") fm (some .null)
              "Not a 'string'.") from rfl] at h
        simp only [Option.some.injEq, Except.error.injEq] at h
        subst h; simp [VErr.kind?, TypeValidationError]
      · cases f' with
        | zero => simp [validateObject.eq_def] at h
        | succ g =>
          rw [validateObject.eq_def] at h
          split at h
          · simp at h
          · split at h
            · simp only [Option.some.injEq, Except.error.injEq] at h
              subst h; simp [VErr.kind?, TypeValidationError]
            · split at h
              · exact absurd h (by simp)
              · rename_i e' heq
                simp only [Option.some.injEq, Except.error.injEq] at h
                subst h
                exact propsLoopNull_kind _ _ _ _ _ heq
              · exact absurd h (by simp)
      · cases f' with
        | zero => simp [validateArray.eq_def] at h
        | succ g =>
          rw [validateArray.eq_def] at h
          split at h
          · simp at h
          · simp only [Option.some.injEq, Except.error.injEq] at h
            subst h; simp [VErr.kind?, TypeValidationError]
      · simp only [Option.some.injEq, Except.error.injEq] at h
        subst h; simp [VErr.kind?, TypeValidationError]

/-- C1 (amended): on an explicitly null raw value, `x-nullable: true` passes
null through with no further type checking and `x-nullable: false` yields a
Nullable error; but an undeclared `x-nullable` is not consulted at all — the
null falls through to ordinary type dispatch, which never produces a
Nullable error (for a string schema it is a Type error). -/
theorem C1_nullable_dispatch :
    (∀ (fuel : ℕ) (nm : String) (ty fm : Option String) it pr rq,
      validateValue (fuel + 1) nm ty fm (some true) it pr rq .null
        = some (.ok .null)) ∧
    (∀ (fuel : ℕ) (nm : String) (ty fm : Option String) it pr rq,
      validateValue (fuel + 1) nm ty fm (some false) it pr rq .null
        = some (.error (NullableValidationError nm ty fm (some .null)
            "Can not be 'null'."))) ∧
    (∀ (fuel : ℕ) (nm : String) (ty fm : Option String) it pr rq,
      validateValue (fuel + 1) nm ty fm none it pr rq .null
        = validateValueType fuel nm ty fm none it pr rq .null) ∧
    (∀ (fuel : ℕ) (nm : String) (ty fm : Option String) nb it pr rq e,
      validateValueType fuel nm ty fm nb it pr rq .null = some (.error e) →
      e.kind? ≠ some .nul) :=
  ⟨fun _ _ _ _ _ _ _ => rfl, fun _ _ _ _ _ _ _ => rfl,
    fun _ _ _ _ _ _ _ => rfl,
    fun fuel nm ty fm nb it pr rq e h => vvtNull_kind fuel nm ty fm nb it pr rq e h⟩

/-- Witness for C1 (amended) at concrete inputs: a nullable-true boolean
schema passes null through, and the fall-through for an undeclared flag
yields a Type (not Nullable) error for a boolean schema. -/
theorem C1_nullable_dispatch_witness :
    validateValue 3 "w" (some "boolean") none (some true) none none none .null
      = some (.ok .null) ∧
    (TypeValidationError "w" (some "boolean") none (some .null)
        "Not a 'boolean'.").kind? ≠ some .nul :=
  ⟨C1_nullable_dispatch.1 2 "w" (some "boolean") none none none none,
   C1_nullable_dispatch.2.2.2 1 "w" (some "boolean") none none none none none
     (.thrown .typ "w" (some "boolean") none (some .null) "Not a 'boolean'.") (by rfl)⟩

/-- C3 counterexample: two required query parameters whose raw values are
both invalid integers.  The request fails with the first parameter's
wrapped Type error, and changing the second parameter's raw value from the
invalid "y" to the valid "5" leaves the outcome identical — the second
definition is never checked, refuting independent sibling validation. -/
theorem C3_counterexample :
    validateParameters 3
        [⟨"a", some "query", some true, some "integer", some "int32", none, none, none, none⟩,
         ⟨"b", some "query", some true, some "integer", some "int32", none, none, none, none⟩]
        ⟨[], [("a", some (.str "x")), ("b", some (.str "y"))], none⟩
      = some (.error (.perr (.parameterValidationError
          ⟨"a", some "query", some true, some "integer", some "int32", none, none, none, none⟩
          (some (.str "x"))
          (TypeValidationError "a" (some "integer") (some "int32") (some (.str "x"))
            "Not an 'integer'.")))) ∧
    validateParameters 3
        [⟨"a", some "query", some true, some "integer", some "int32", none, none, none, none⟩,
         ⟨"b", some "query", some true, some "integer", some "int32", none, none, none, none⟩]
        ⟨[], [("a", some (.str "x")), ("b", some (.str "5"))], none⟩
      = validateParameters 3
        [⟨"a", some "query", some true, some "integer", some "int32", none, none, none, none⟩,
         ⟨"b", some "query", some true, some "integer", some "int32", none, none, none, none⟩]
        ⟨[], [("a", some (.str "x")), ("b", some (.str "y"))], none⟩ := ⟨rfl, rfl⟩

/-- C3 (amended): parameters are validated in declaration order and the
first failure aborts the request-level loop: the outcome is that parameter's
wrapped error, and the remaining definitions — whatever they are — are never
consulted. -/
theorem C3_short_circuit :
    ∀ (fuel : ℕ) (pd : ParamDef) (rest rest' : List ParamDef) (ctx : Ctx)
      (pv : Option Val) (e : PErr),
      getParameterValue ctx pd = .ok pv →
      validateParameter fuel pd pv = some (.error e) →
      validateParameters fuel (pd :: rest) ctx = some (.error (.perr e)) ∧
      validateParameters fuel (pd :: rest) ctx
        = validateParameters fuel (pd :: rest') ctx := by
  intro fuel pd rest rest' ctx pv e h1 h2
  constructor
  · simp only [validateParameters, h1, h2]
  · simp only [validateParameters, h1, h2]

/-- Witness for C3 (amended) at a concrete request: an invalid first query
parameter aborts with its wrapped error, independent of the second
definition. -/
theorem C3_short_circuit_witness :
    validateParameters 3
        [⟨"a", some "query", some true, some "integer", some "int32", none, none, none, none⟩,
         ⟨"c", some "query", none, some "string", none, none, none, none, none⟩]
        ⟨[], [("a", some (.str "x"))], none⟩
      = some (.error (.perr (.parameterValidationError
          ⟨"a", some "query", some true, some "integer", some "int32", none, none, none, none⟩
          (some (.str "x"))
          (TypeValidationError "a" (some "integer") (some "int32") (some (.str "x"))
            "Not an 'integer'.")))) ∧
    validateParameters 3
        [⟨"a", some "query", some true, some "integer", some "int32", none, none, none, none⟩,
         ⟨"c", some "query", none, some "string", none, none, none, none, none⟩]
        ⟨[], [("a", some (.str "x"))], none⟩
      = validateParameters 3
        [⟨"a", some "query", some true, some "integer", some "int32", none, none, none, none⟩]
        ⟨[], [("a", some (.str "x"))], none⟩ :=
  C3_short_circuit 3
    ⟨"a", some "query", some true, some "integer", some "int32", none, none, none, none⟩
    [⟨"c", some "query", none, some "string", none, none, none, none, none⟩] []
    ⟨[], [("a", some (.str "x"))], none⟩ (some (.str "x"))
    (.parameterValidationError
      ⟨"a", some "query", some true, some "integer", some "int32", none, none, none, none⟩
      (some (.str "x"))
      (TypeValidationError "a" (some "integer") (some "int32") (some (.str "x"))
        "Not an 'integer'.")) (by rfl) (by rfl)

/-- C4: the required/default/skip logic, at the object-property level
(clauses 1–4) and the parameter level (clauses 5–7).  A required absent
field yields a Required error naming it; an absent optional field with a
default is validated exactly like a supplied value — both as the explicit
continuation and, for a declared property, as equality with validating a raw
map that carries the default; an absent optional field without a default
short-circuits with no value and no error. -/
theorem C4_required_default_skip :
    (∀ (fuel : ℕ) (pn : String) (pinfo : Schema) rest req (v : Val) acc,
      (req.getD []).contains pn = true →
      jsIndex v pn = .ok none →
      validatePropsLoop (fuel + 1) ((pn, pinfo) :: rest) req v acc
        = some (.error (RequiredValidationError pn pinfo.ty pinfo.fm none ""))) ∧
    (∀ (fuel : ℕ) (pn : String) (pinfo : Schema) rest req (v : Val) acc d,
      (req.getD []).contains pn = false →
      jsIndex v pn = .ok none →
      pinfo.dflt = some d →
      validatePropsLoop (fuel + 1) ((pn, pinfo) :: rest) req v acc
        = match validateValue fuel pn pinfo.ty pinfo.fm pinfo.nullable pinfo.items
            pinfo.props pinfo.req d with
          | none => none
          | some (.error e) => some (.error e)
          | some (.ok w) => validatePropsLoop fuel rest req v (assocSet acc pn w)) ∧
    (∀ (fuel : ℕ) (pn : String) (pinfo : Schema) req (m : List (String × Val)) acc d,
      (req.getD []).contains pn = false →
      assocGet m pn = none →
      pinfo.dflt = some d →
      validatePropsLoop (fuel + 1) [(pn, pinfo)] req (.obj m) acc
        = validatePropsLoop (fuel + 1) [(pn, pinfo)] req (.obj ((pn, d) :: m)) acc) ∧
    (∀ (fuel : ℕ) (pn : String) (pinfo : Schema) rest req (v : Val) acc,
      (req.getD []).contains pn = false →
      jsIndex v pn = .ok none →
      pinfo.dflt = none →
      validatePropsLoop (fuel + 1) ((pn, pinfo) :: rest) req v acc
        = validatePropsLoop fuel rest req v acc) ∧
    (∀ (fuel : ℕ) (pd : ParamDef), pd.required = some true →
      validateParameter (fuel + 1) pd none
        = some (.error (.parameterValidationError pd none
            (RequiredValidationError pd.name pd.ty pd.fm none "")))) ∧
    (∀ (fuel : ℕ) (pd : ParamDef) (d : Val),
      pd.required.getD false = false → pd.dflt = some d →
      validateParameter (fuel + 1) pd none = validateParameter (fuel + 1) pd (some d)) ∧
    (∀ (fuel : ℕ) (pd : ParamDef),
      pd.required.getD false = false → pd.dflt = none →
      validateParameter (fuel + 1) pd none = some (.ok none)) := by
  refine ⟨?_, ?_, ?_, ?_, ?_, ?_, ?_⟩
  · intro fuel pn pinfo rest req v acc h1 h2
    rw [validatePropsLoop.eq_def]
    simp only [h1, h2, if_true]
  · intro fuel pn pinfo rest req v acc d h1 h2 h3
    rw [validatePropsLoop.eq_def]
    simp only [h1, h2, h3, Bool.false_eq_true, if_false]
  · intro fuel pn pinfo req m acc d h1 h2 h3
    have hcons : assocGet ((pn, d) :: m) pn = some d := by simp [assocGet]
    conv_lhs => rw [validatePropsLoop.eq_def]
    conv_rhs => rw [validatePropsLoop.eq_def]
    simp only [jsIndex, h1, h2, h3, hcons, Bool.false_eq_true, if_false]
    cases hv : validateValue fuel pn pinfo.ty pinfo.fm pinfo.nullable pinfo.items
        pinfo.props pinfo.req d with
    | none => simp [hv]
    | some r =>
      cases r with
      | error e => simp [hv]
      | ok w =>
        simp only [hv]
        cases fuel <;> rfl
  · intro fuel pn pinfo rest req v acc h1 h2 h3
    rw [validatePropsLoop.eq_def]
    simp only [h1, h2, h3, Bool.false_eq_true, if_false]
  · intro fuel pd h
    rw [validateParameter]
    simp only [h, Option.getD_some, if_true]
  · intro fuel pd d h1 h2
    conv_lhs => rw [validateParameter]
    conv_rhs => rw [validateParameter]
    simp only [h1, h2, Bool.false_eq_true, if_false]
  · intro fuel pd h1 h2
    rw [validateParameter]
    simp only [h1, h2, Bool.false_eq_true, if_false]

/-- Witness for C4 at concrete inputs: a required absent `isbn` yields the
Required error naming it; an absent optional string property with default
"koa" validates like a supplied "koa"; an absent optional property without a
default contributes nothing; and the three parameter-level clauses at a
concrete query parameter. -/
theorem C4_required_default_skip_witness :
    validatePropsLoop 3 [("isbn", Schema.mk (some "string") none none none none none none)]
        (some ["isbn"]) (.obj []) []
      = some (.error (RequiredValidationError "isbn" (some "string") none none "")) ∧
    validatePropsLoop 3 [("pub", Schema.mk (some "string") none none none none none
          (some (.str "koa")))] none (.obj []) []
      = validatePropsLoop 3 [("pub", Schema.mk (some "string") none none none none none
          (some (.str "koa")))] none (.obj [("pub", .str "koa")]) [] ∧
    validatePropsLoop 3 [("pub", Schema.mk (some "string") none none none none none none)]
        none (.obj []) []
      = validatePropsLoop 2 [] none (.obj []) [] ∧
    validateParameter 3 ⟨"q", some "query", some true, some "string", none, none, none,
        none, none⟩ none
      = some (.error (.parameterValidationError
          ⟨"q", some "query", some true, some "string", none, none, none, none, none⟩ none
          (RequiredValidationError "q" (some "string") none none ""))) ∧
    validateParameter 3 ⟨"q", some "query", none, some "string", none, none, none, none,
        some (.str "d")⟩ none
      = validateParameter 3 ⟨"q", some "query", none, some "string", none, none, none,
          none, some (.str "d")⟩ (some (.str "d")) ∧
    validateParameter 3 ⟨"q", some "query", none, some "string", none, none, none, none,
        none⟩ none = some (.ok none) :=
  ⟨C4_required_default_skip.1 2 "isbn" (Schema.mk (some "string") none none none none none none)
      [] (some ["isbn"]) (.obj []) [] (by rfl) (by rfl),
   C4_required_default_skip.2.2.1 2 "pub"
      (Schema.mk (some "string") none none none none none (some (.str "koa")))
      none [] [] (.str "koa") (by rfl) (by rfl) (by rfl),
   C4_required_default_skip.2.2.2.1 2 "pub"
      (Schema.mk (some "string") none none none none none none)
      [] none (.obj []) [] (by rfl) (by rfl) (by rfl),
   C4_required_default_skip.2.2.2.2.1 2
      ⟨"q", some "query", some true, some "string", none, none, none, none, none⟩ (by rfl),
   C4_required_default_skip.2.2.2.2.2.1 2
      ⟨"q", some "query", none, some "string", none, none, none, none, some (.str "d")⟩
      (.str "d") (by rfl) (by rfl),
   C4_required_default_skip.2.2.2.2.2.2 2
      ⟨"q", some "query", none, some "string", none, none, none, none, none⟩
      (by rfl) (by rfl)⟩

theorem assocGet_cons_ne (m : List (String × Val)) (k k' : String) (x : Val)
    (h : k' ≠ k) : assocGet ((k, x) :: m) k' = assocGet m k' := by
  simp [assocGet, List.find?, h.symm]

theorem assocSet_mem {acc : List (String × Val)} {k k' : String} {w w' : Val}
    (h : (k', w') ∈ assocSet acc k w) : (k' = k ∧ w' = w) ∨ (k', w') ∈ acc := by
  induction acc with
  | nil =>
    simp only [assocSet, List.mem_singleton] at h
    exact Or.inl ((Prod.mk.injEq _ _ _ _).mp h)
  | cons a t ih =>
    obtain ⟨ak, av⟩ := a
    by_cases h1 : ak = k
    · simp only [assocSet, if_pos h1, List.mem_cons] at h
      rcases h with h | h
      · exact Or.inl ((Prod.mk.injEq _ _ _ _).mp h)
      · exact Or.inr (List.mem_cons_of_mem _ h)
    · simp only [assocSet, if_neg h1, List.mem_cons] at h
      rcases h with h | h
      · exact Or.inr (h ▸ List.mem_cons_self _ _)
      · rcases ih h with h' | h'
        · exact Or.inl h'
        · exact Or.inr (List.mem_cons_of_mem _ h')

theorem assocGet_assocSet_ne (acc : List (String × Val)) (k k' : String) (w : Val)
    (h : k' ≠ k) : assocGet (assocSet acc k w) k' = assocGet acc k' := by
  induction acc with
  | nil => simp [assocSet, assocGet, List.find?, h.symm]
  | cons a t ih =>
    obtain ⟨ak, av⟩ := a
    by_cases h1 : ak = k
    · subst h1
      rw [show assocSet ((ak, av) :: t) ak w = (ak, w) :: t from by simp [assocSet]]
      rw [assocGet_cons_ne _ _ _ _ h, assocGet_cons_ne _ _ _ _ h]
    · simp only [assocSet, if_neg h1]
      by_cases h2 : k' = ak
      · subst h2
        simp [assocGet, List.find?]
      · rw [assocGet_cons_ne _ _ _ _ h2, assocGet_cons_ne _ _ _ _ h2]
        exact ih

/-- Every key of the map assembled by the property loop is a declared
property name or was already in the accumulator. -/
theorem propsLoop_keys :
    ∀ (fuel : ℕ) ps req (v : Val) acc out,
      validatePropsLoop fuel ps req v acc = some (.ok out) →
      ∀ k w, (k, w) ∈ out → k ∈ ps.map Prod.fst ∨ ∃ w', (k, w') ∈ acc := by
  intro fuel
  induction fuel with
  | zero => intro ps req v acc out h; rw [validatePropsLoop.eq_1] at h; exact absurd h (by simp)
  | succ f ih =>
    intro ps req v acc out h k w hm
    match ps with
    | [] =>
      rw [validatePropsLoop.eq_2] at h
      simp only [Option.some.injEq, Except.ok.injEq] at h
      subst h
      exact Or.inr ⟨w, hm⟩
    | (pn, pi) :: rest =>
      rw [validatePropsLoop.eq_3] at h
      dsimp only [] at h
      split at h
      · exact absurd h (by simp)
      · split at h
        · exact absurd h (by simp)
        · rcases ih rest req v acc out h k w hm with h' | h'
          · exact Or.inl (by simp [h'])
          · exact Or.inr h'
        · split at h
          · exact absurd h (by simp)
          · exact absurd h (by simp)
          · rename_i w' hval
            rcases ih rest req v (assocSet acc pn w') out h k w hm with h' | ⟨w'', h''⟩
            · exact Or.inl (by simp [h'])
            · rcases assocSet_mem h'' with ⟨rfl, _⟩ | h3
              · exact Or.inl (by simp)
              · exact Or.inr ⟨w'', h3⟩

/-- The property loop leaves accumulator entries at keys outside the
remaining declared properties untouched. -/
theorem propsLoop_untouched :
    ∀ (fuel : ℕ) ps req (v : Val) acc out,
      validatePropsLoop fuel ps req v acc = some (.ok out) →
      ∀ k, k ∉ ps.map Prod.fst → assocGet out k = assocGet acc k := by
  intro fuel
  induction fuel with
  | zero => intro ps req v acc out h; rw [validatePropsLoop.eq_1] at h; exact absurd h (by simp)
  | succ f ih =>
    intro ps req v acc out h k hk
    match ps with
    | [] =>
      rw [validatePropsLoop.eq_2] at h
      simp only [Option.some.injEq, Except.ok.injEq] at h
      subst h; rfl
    | (pn, pi) :: rest =>
      have hk1 : k ≠ pn := by simp at hk; exact fun he => hk.1 he
      have hk2 : k ∉ rest.map Prod.fst := by simp at hk ⊢; exact hk.2
      rw [validatePropsLoop.eq_3] at h
      dsimp only [] at h
      split at h
      · exact absurd h (by simp)
      · split at h
        · exact absurd h (by simp)
        · exact ih rest req v acc out h k hk2
        · split at h
          · exact absurd h (by simp)
          · exact absurd h (by simp)
          · rename_i w' hval
            rw [ih rest req v (assocSet acc pn w') out h k hk2]
            exact assocGet_assocSet_ne _ _ _ _ hk1

/-- Adding an undeclared key to the raw map does not change the property
loop's outcome at all. -/
theorem propsLoop_consIrrel :
    ∀ (fuel : ℕ) ps req (m : List (String × Val)) acc (k : String) (x : Val),
      k ∉ ps.map Prod.fst →
      validatePropsLoop fuel ps req (.obj ((k, x) :: m)) acc
        = validatePropsLoop fuel ps req (.obj m) acc := by
  intro fuel
  induction fuel with
  | zero => intro ps req m acc k x hk; rw [validatePropsLoop.eq_1, validatePropsLoop.eq_1]
  | succ f ih =>
    intro ps req m acc k x hk
    match ps with
    | [] => rw [validatePropsLoop.eq_2, validatePropsLoop.eq_2]
    | (pn, pi) :: rest =>
      have hk1 : pn ≠ k := by simp at hk; exact fun he => hk.1 he.symm
      have hk2 : k ∉ rest.map Prod.fst := by simp at hk ⊢; exact hk.2
      rw [validatePropsLoop.eq_3, validatePropsLoop.eq_3]
      simp only [jsIndex, assocGet_cons_ne m k pn x hk1]
      cases hg : assocGet m pn with
      | none =>
        by_cases hc : (req.getD []).contains pn = true
        · simp only [hc, if_true]
        · simp only [hc, Bool.false_eq_true, if_false]
          cases hd : pi.dflt with
          | none => exact ih rest req m acc k x hk2
          | some d =>
            cases hv : validateValue f pn pi.ty pi.fm pi.nullable pi.items pi.props pi.req d with
            | none => simp only [hv]
            | some r =>
              cases r with
              | error e => simp only [hv]
              | ok w =>
                simp only [hv]
                exact ih rest req m (assocSet acc pn w) k x hk2
      | some pv =>
        simp only [ite_self]
        cases hv : validateValue f pn pi.ty pi.fm pi.nullable pi.items pi.props pi.req pv with
        | none => simp only [hv]
        | some r =>
          cases r with
          | error e => simp only [hv]
          | ok w =>
            simp only [hv]
            exact ih rest req m (assocSet acc pn w) k x hk2

/-- C7: on success, the typed map assembled by `validateObject` contains only
keys that are declared property names; and consing an undeclared key onto the
raw map changes nothing about the outcome — undeclared input properties are
silently dropped and can never cause an error. -/
theorem C7_undeclared_props_dropped :
    (∀ (fuel : ℕ) (nm : String) (ty fm : Option String) ps req
        (m : List (String × Val)) out,
      validateObject fuel nm ty fm (some ps) req (.obj m) = some (.ok (.obj out)) →
      ∀ k w, (k, w) ∈ out → k ∈ ps.map Prod.fst) ∧
    (∀ (fuel : ℕ) (nm : String) (ty fm : Option String) ps req
        (m : List (String × Val)) (k : String) (x : Val),
      k ∉ ps.map Prod.fst →
      validateObject fuel nm ty fm (some ps) req (.obj ((k, x) :: m))
        = validateObject fuel nm ty fm (some ps) req (.obj m)) := by
  constructor
  · intro fuel nm ty fm ps req m out h k w hm
    match fuel with
    | 0 => rw [validateObject.eq_1] at h; exact absurd h (by simp)
    | f + 1 =>
      rw [validateObject.eq_3] at h
      split at h
      · exact absurd h (by simp)
      · exact absurd h (by simp)
      · rename_i acc heq
        simp only [Option.some.injEq, Except.ok.injEq, Val.obj.injEq] at h
        rw [← h] at hm
        rcases propsLoop_keys f ps req (.obj m) [] acc heq k w hm with h' | ⟨w', h'⟩
        · exact h'
        · exact absurd h' (by simp)
  · intro fuel nm ty fm ps req m k x hk
    match fuel with
    | 0 => rw [validateObject.eq_1, validateObject.eq_1]
    | f + 1 =>
      rw [validateObject.eq_3, validateObject.eq_3,
        propsLoop_consIrrel f ps req m [] k x hk]

/-- Witness for C7 at a concrete input: validating a book object carrying an
undeclared `junk` key yields a map whose only key is the declared `isbn`,
and the outcome equals that for the same raw map without `junk`. -/
theorem C7_undeclared_props_dropped_witness :
    (∀ k w, (k, w) ∈ [("isbn", Val.str "978-1-84951-899-4")] →
      k ∈ ([("isbn", Schema.mk (some "string") none none none none none none)].map
        Prod.fst)) ∧
    validateObject 5 "b" (some "object") none
        (some [("isbn", Schema.mk (some "string") none none none none none none)]) none
        (.obj [("junk", .num (.fin 1)), ("isbn", .str "978-1-84951-899-4")])
      = validateObject 5 "b" (some "object") none
        (some [("isbn", Schema.mk (some "string") none none none none none none)]) none
        (.obj [("isbn", .str "978-1-84951-899-4")]) :=
  ⟨fun k w hm => C7_undeclared_props_dropped.1 5 "b" (some "object") none
      [("isbn", Schema.mk (some "string") none none none none none none)] none
      [("junk", .num (.fin 1)), ("isbn", .str "978-1-84951-899-4")]
      [("isbn", Val.str "978-1-84951-899-4")] (by rfl) k w hm,
   C7_undeclared_props_dropped.2 5 "b" (some "object") none
      [("isbn", Schema.mk (some "string") none none none none none none)] none
      [("isbn", .str "978-1-84951-899-4")] "junk" (.num (.fin 1)) (by simp)⟩

end KoaSpec
